import Mathlib

/-!
# GreenRoute: route aggregation engine

A shallow embedding of the Go backend of `greenroute`
(`internal/services/route_service.go`, `internal/external/maps_client.go`,
`internal/external/charging_client.go`, `internal/database/mongodb.go`,
`internal/models/route.go`) together with theorems about `CalculateRoute`
and `FindStationsAlongRoute`.

Conventions of the embedding:

* `float64` values live in an arbitrary type `F` carrying the operations the
  program uses (`Float64 F`).  No law is assumed of these operations, so a
  theorem stated for every `F` holds for IEEE-754 arithmetic.  `Frac` is an
  exact instance on which the definitions can be run.
* `time.Duration` and `int64` are `Int`, with `wrapInt64` applied wherever Go
  arithmetic on them can overflow.
* Every collaborator (clock, MongoDB collection, Directions API, gorm,
  HTTP client) is a field of `World`; calls that are repeated inside one
  request (`Directions`, HTTP `Do`) take the number of the call, so a
  collaborator may answer differently each time.
* Each operation returns what it returns in Go together with the list of
  collaborator calls it made (`Event`), in order.
-/

set_option autoImplicit false
set_option linter.unusedSectionVars false

namespace GreenRoute

/-! ## Primitive types -/

/-- The operations on `float64` that the program uses. -/
class Float64 (F : Type) where
  /-- Conversion `float64(n)` of an integer, also used for numeric literals. -/
  ofInt : Int → F
  /-- Go `a + b`. -/
  add : F → F → F
  /-- Go `a * b`. -/
  mul : F → F → F
  /-- Go `a / b`. -/
  div : F → F → F
  /-- Go `a <= b`. -/
  le : F → F → Bool
  /-- Conversion `int64(x)`: the fraction is discarded (truncation toward zero). -/
  toInt64 : F → Int
  /-- Rendering by `fmt.Sprintf("%f", x)`. -/
  format : F → String

/-- Go `a >= b`, which is `b <= a`. -/
def Float64.ge {F : Type} [Float64 F] (a b : F) : Bool := Float64.le b a

/-- Exact fractions `num / den`, kept in lowest terms by the operations;
an instance of `Float64` on which the program can be evaluated. -/
structure Frac where
  num : Int
  den : Nat
deriving DecidableEq, Repr

namespace Frac

/-- Reduce a fraction to lowest terms. -/
def norm (n : Int) (d : Nat) : Frac :=
  let g := Nat.gcd n.natAbs d
  ⟨n / (g : Int), d / g⟩

def ofInt (n : Int) : Frac := ⟨n, 1⟩

def add (a b : Frac) : Frac := norm (a.num * b.den + b.num * a.den) (a.den * b.den)

def mul (a b : Frac) : Frac := norm (a.num * b.num) (a.den * b.den)

def div (a b : Frac) : Frac :=
  norm (a.num * Int.sign b.num * b.den) (a.den * b.num.natAbs)

def le (a b : Frac) : Bool := decide (a.num * b.den ≤ b.num * a.den)

/-- Truncation toward zero. -/
def toInt64 (a : Frac) : Int := Int.tdiv a.num a.den

def format (a : Frac) : String := toString a.num ++ "/" ++ toString a.den

end Frac

instance : Float64 Frac where
  ofInt := Frac.ofInt
  add := Frac.add
  mul := Frac.mul
  div := Frac.div
  le := Frac.le
  toInt64 := Frac.toInt64
  format := Frac.format

/-- Reduction of an integer to the range of `int64` (two's complement wrap-around). -/
def wrapInt64 (x : Int) : Int := (x + 2 ^ 63) % 2 ^ 64 - 2 ^ 63

/-- The constant `time.Second`, in nanoseconds. -/
def Second : Int := 1000000000

/-- The method `time.Duration.Seconds` of the Go standard library:
`float64(d / Second) + float64(d % Second) / 1e9`. -/
def Seconds {F : Type} [Float64 F] (d : Int) : F :=
  Float64.add (Float64.ofInt (Int.tdiv d Second))
    (Float64.div (Float64.ofInt (Int.tmod d Second)) (Float64.ofInt 1000000000))

/-- A reading of the clock: what the program observes of a `time.Time`. -/
structure Time where
  Weekday : Int
  Hour : Int
  unixNano : Int
deriving DecidableEq, Repr

/-- An error value created by a library the program calls (the MongoDB driver,
the Google Maps client, gorm, `net/http`, `encoding/json`). -/
structure LibError where
  id : Nat
deriving DecidableEq, Repr

/-- Go `error` values the program handles. -/
inductive Error where
  /-- The value `errors.New(msg)`. -/
  | new (msg : String)
  /-- The value `fmt.Errorf(msg ++ ": %v", cause)`. -/
  | errorf (msg : String) (cause : Error)
  /-- The value `fmt.Errorf(msg ++ ": %d", code)`. -/
  | statusf (msg : String) (code : Int)
  /-- An error value created by a library, handed on as it is. -/
  | external (err : LibError)
deriving DecidableEq, Repr

/-- The sentinel `mongo.ErrNoDocuments`. -/
def ErrNoDocuments : LibError := ⟨0⟩

/-! ## `internal/models/route.go` -/

abbrev TransportMode := String

def Car : TransportMode := "car"
def Bicycle : TransportMode := "bicycle"
def PublicTransit : TransportMode := "public_transit"
def Walking : TransportMode := "walking"

structure Location (F : Type) where
  Latitude : F
  Longitude : F
  Address : String
deriving DecidableEq, Repr

structure RouteSegment (F : Type) where
  StartLocation : Location F
  EndLocation : Location F
  Mode : TransportMode
  Duration : Int
  Distance : F
  CO2Emission : F
deriving DecidableEq, Repr

structure Route (F : Type) where
  ID : String
  UserID : String
  StartLocation : Location F
  EndLocation : Location F
  Segments : List (RouteSegment F)
  TotalDistance : F
  TotalDuration : Int
  TotalEmission : F
  CreatedAt : Time
deriving DecidableEq, Repr

structure RoutePreferences (F : Type) where
  PreferredModes : List TransportMode
  AvoidHighways : Bool
  MaxWalkingDistance : F
  PrioritizeEmission : Bool
  MaxTransfers : Int
deriving DecidableEq, Repr

/-! ## Collaborator data -/

/-- The travel modes of the Google Maps client library. -/
inductive MapsMode where
  | TravelModeDriving
  | TravelModeBicycling
  | TravelModeWalking
  | TravelModeTransit
deriving DecidableEq, Repr

/-- The fields of `maps.DirectionsRequest` that `GetRoute` sets. -/
structure DirectionsRequest where
  Origin : String
  Destination : String
  Mode : MapsMode
  DepartureTime : String
  Alternatives : Bool
deriving DecidableEq, Repr

/-- The part of `maps.Leg` that `GetRoute` reads: `Duration` and `Distance.Meters`. -/
structure MapsLeg where
  Duration : Int
  DistanceMeters : Int
deriving DecidableEq, Repr

structure MapsRoute where
  Legs : List MapsLeg
deriving DecidableEq, Repr

/-- The struct `TrafficPattern` of `mongodb.go`. -/
structure TrafficPattern (F : Type) where
  StartLat : F
  StartLng : F
  EndLat : F
  EndLng : F
  DayOfWeek : Int
  HourOfDay : Int
  Duration : F
  Timestamp : Time
  SampleCount : Int
deriving DecidableEq, Repr

/-- The six-key `bson.M` filter built by `SaveTrafficPattern` and `GetTrafficPattern`. -/
structure TrafficFilter (F : Type) where
  start_lat : F
  start_lng : F
  end_lat : F
  end_lng : F
  day_of_week : Int
  hour_of_day : Int
deriving DecidableEq, Repr

/-- The update document of `SaveTrafficPattern`:
`$inc` of `sample_count` and `duration`, `$set` of `timestamp`. -/
structure TrafficUpdate (F : Type) where
  inc_sample_count : Int
  inc_duration : F
  set_timestamp : Time
deriving DecidableEq, Repr

/-- The struct `SavedRoute` of `postgres.go`, with the fields `saveRoute` fills. -/
structure SavedRoute (F : Type) where
  UserID : String
  StartLat : F
  StartLng : F
  EndLat : F
  EndLng : F
  Distance : F
  Duration : Int
  CO2Emission : F
  TransportMode : String
  StartAddress : String
  EndAddress : String
deriving DecidableEq, Repr

structure AddressInfo (F : Type) where
  Title : String
  Address : String
  Latitude : F
  Longitude : F
deriving DecidableEq, Repr

structure Connection (F : Type) where
  ConnectionTypeTitle : String
  PowerKW : F
deriving DecidableEq, Repr

/-- The struct `ChargingStation` of `charging_client.go`. -/
structure ChargingStation (F : Type) where
  ID : Int
  AddressInfo : AddressInfo F
  Connections : List (Connection F)
  UsageTypeTitle : String
deriving DecidableEq, Repr

/-- What one HTTP round trip of `FindNearbyStations` can produce. -/
inductive HttpOutcome (F : Type) where
  /-- The call `http.NewRequest` returned an error. -/
  | newRequestFailed (err : LibError)
  /-- The call `client.Do` returned an error. -/
  | doFailed (err : LibError)
  /-- A response arrived, with its status code and the result of decoding its body. -/
  | response (statusCode : Int) (decoded : Except LibError (List (ChargingStation F)))

/-- The behaviour of every collaborator during one request. -/
structure World (F : Type) where
  /-- The `k`-th reading of `time.Now()` in the request. -/
  now : Nat → Time
  /-- The call `collection.FindOne(ctx, filter).Decode(&pattern)`. -/
  findOne : TrafficFilter F → Except LibError (TrafficPattern F)
  /-- The error returned by `collection.UpdateOne(ctx, filter, update, upsert)`. -/
  updateOne : TrafficFilter F → TrafficUpdate F → Option LibError
  /-- The `k`-th call of `client.Directions`. -/
  directions : Nat → DirectionsRequest → Except LibError (List MapsRoute)
  /-- The error of `db.Create(route)`. -/
  create : SavedRoute F → Option LibError
  /-- The `k`-th HTTP request of the charging client, by URL. -/
  httpGet : Nat → String → HttpOutcome F

/-- A call made to a collaborator.  The event `httpGet` stands for one call of
`FindNearbyStations`, also when the request could not be built or sent. -/
inductive Event (F : Type) where
  | findOne (filter : TrafficFilter F)
  | directions (req : DirectionsRequest)
  | create (route : SavedRoute F)
  | updateOne (filter : TrafficFilter F) (update : TrafficUpdate F)
  | httpGet (url : String)
deriving DecidableEq, Repr

/-- How a Go call ends: with a value, with an error, or with a run-time panic. -/
inductive Outcome (α : Type) where
  | ok (val : α)
  | error (err : Error)
  | panic
deriving DecidableEq, Repr

/-! ## `internal/external/maps_client.go` -/

section Operations

variable {F : Type} [Float64 F]

def formatLocation (loc : Location F) : String :=
  Float64.format loc.Latitude ++ "," ++ Float64.format loc.Longitude

def convertTransportMode (mode : TransportMode) : MapsMode :=
  if mode = Car then MapsMode.TravelModeDriving
  else if mode = Bicycle then MapsMode.TravelModeBicycling
  else if mode = Walking then MapsMode.TravelModeWalking
  else if mode = PublicTransit then MapsMode.TravelModeTransit
  else MapsMode.TravelModeDriving

/-- The map literal `emissionsPerKm` indexed at `mode`; a key that is absent
yields the zero value of `float64`. -/
def emissionsPerKm (mode : TransportMode) : F :=
  if mode = Car then Float64.ofInt 120
  else if mode = Bicycle then Float64.ofInt 0
  else if mode = Walking then Float64.ofInt 0
  else if mode = PublicTransit then Float64.ofInt 60
  else Float64.ofInt 0

def calculateEmissions (mode : TransportMode) (distanceMeters : F) : F :=
  let kmTraveled := Float64.div distanceMeters (Float64.ofInt 1000)
  Float64.mul kmTraveled (emissionsPerKm mode)

/-- The request `GetRoute` sends to the Directions API. -/
def directionsRequest (origin destination : Location F) (mode : TransportMode) :
    DirectionsRequest :=
  { Origin := formatLocation origin
    Destination := formatLocation destination
    Mode := convertTransportMode mode
    DepartureTime := "now"
    Alternatives := true }

/-- The method `MapsClient.GetRoute`; `directions` is the call `m.client.Directions`. -/
def GetRoute (directions : DirectionsRequest → Except LibError (List MapsRoute))
    (origin destination : Location F) (mode : TransportMode) :
    Except Error (RouteSegment F) :=
  match directions (directionsRequest origin destination mode) with
  | .error err => .error (Error.errorf "failed to get directions" (Error.external err))
  | .ok [] => .error (Error.new "no routes found")
  | .ok (route :: _) =>
    match route.Legs with
    | [] => .error (Error.new "route has no legs")
    | leg :: _ =>
      .ok { StartLocation := origin
            EndLocation := destination
            Mode := mode
            Duration := wrapInt64 (leg.Duration * Second)
            Distance := Float64.ofInt leg.DistanceMeters
            CO2Emission := calculateEmissions mode (Float64.ofInt leg.DistanceMeters) }

/-! ## `internal/database/mongodb.go` -/

/-- The method `MongoDB.SaveTrafficPattern`: the filter and the update it sends. -/
def saveTrafficPatternCall (pattern : TrafficPattern F) (now : Time) :
    TrafficFilter F × TrafficUpdate F :=
  ({ start_lat := pattern.StartLat
     start_lng := pattern.StartLng
     end_lat := pattern.EndLat
     end_lng := pattern.EndLng
     day_of_week := pattern.DayOfWeek
     hour_of_day := pattern.HourOfDay },
   { inc_sample_count := 1
     inc_duration := pattern.Duration
     set_timestamp := now })

/-- The method `MongoDB.SaveTrafficPattern`: the call it makes and the error it
returns; `now` is its reading of the clock. -/
def SaveTrafficPattern (w : World F) (pattern : TrafficPattern F) (now : Time) :
    Event F × Option Error :=
  (Event.updateOne (saveTrafficPatternCall pattern now).1 (saveTrafficPatternCall pattern now).2,
   (w.updateOne (saveTrafficPatternCall pattern now).1
      (saveTrafficPatternCall pattern now).2).map Error.external)

/-- The filter `GetTrafficPattern` sends. -/
def getTrafficPatternFilter (startLat startLng endLat endLng : F)
    (dayOfWeek hourOfDay : Int) : TrafficFilter F :=
  { start_lat := startLat
    start_lng := startLng
    end_lat := endLat
    end_lng := endLng
    day_of_week := dayOfWeek
    hour_of_day := hourOfDay }

/-- The method `MongoDB.GetTrafficPattern`: `(nil, nil)` is `.ok none`. -/
def GetTrafficPattern (w : World F) (startLat startLng endLat endLng : F)
    (dayOfWeek hourOfDay : Int) : Except Error (Option (TrafficPattern F)) :=
  match w.findOne (getTrafficPatternFilter startLat startLng endLat endLng dayOfWeek hourOfDay) with
  | .error err => if err = ErrNoDocuments then .ok none else .error (Error.external err)
  | .ok pattern => .ok (some pattern)

/-! ## `internal/external/charging_client.go` -/

def nearbyStationsURL (lat lng radiusKm : F) : String :=
  "https://api.openchargemap.io/v3/poi?output=json&latitude=" ++ Float64.format lat
    ++ "&longitude=" ++ Float64.format lng
    ++ "&distance=" ++ Float64.format radiusKm
    ++ "&distanceunit=km&maxresults=10"

/-- The status `http.StatusOK`. -/
def StatusOK : Int := 200

/-- The method `ChargingClient.FindNearbyStations`; `k` numbers the HTTP request. -/
def FindNearbyStations (w : World F) (k : Nat) (lat lng radiusKm : F) :
    Except Error (List (ChargingStation F)) :=
  match w.httpGet k (nearbyStationsURL lat lng radiusKm) with
  | .newRequestFailed err => .error (Error.errorf "failed to create request" (Error.external err))
  | .doFailed err => .error (Error.errorf "failed to send request" (Error.external err))
  | .response statusCode decoded =>
    if statusCode ≠ StatusOK then
      .error (Error.statusf "API request failed with status" statusCode)
    else
      match decoded with
      | .error err => .error (Error.errorf "failed to decode response" (Error.external err))
      | .ok stations => .ok stations

/-- The variables of `FindStationsAlongRoute`: `allStations` and the map `seenStations`. -/
structure StationState (F : Type) where
  allStations : List (ChargingStation F)
  seenStations : Int → Bool

/-- The inner loop of `FindStationsAlongRoute`, over the stations of one waypoint. -/
def dedupLoop : List (ChargingStation F) → StationState F → StationState F
  | [], st => st
  | station :: rest, st =>
    if !st.seenStations station.ID then
      dedupLoop rest
        { allStations := st.allStations ++ [station]
          seenStations := fun id => if id = station.ID then true else st.seenStations id }
    else
      dedupLoop rest st

/-- The outer loop of `FindStationsAlongRoute`, over the waypoints; `k` numbers
the lookup and the events are collected in `trace`. -/
def waypointLoop (w : World F) (corridorKm : F) :
    Nat → List (F × F) → StationState F → List (Event F) → StationState F × List (Event F)
  | _, [], st, trace => (st, trace)
  | k, wp :: rest, st, trace =>
    match FindNearbyStations w k wp.1 wp.2 corridorKm with
    | .error _ =>
      waypointLoop w corridorKm (k + 1) rest st
        (trace ++ [Event.httpGet (nearbyStationsURL wp.1 wp.2 corridorKm)])
    | .ok stations =>
      waypointLoop w corridorKm (k + 1) rest (dedupLoop stations st)
        (trace ++ [Event.httpGet (nearbyStationsURL wp.1 wp.2 corridorKm)])

/-- What `FindStationsAlongRoute` returns, with the calls it made. -/
structure StationsRun (F : Type) where
  stations : List (ChargingStation F)
  err : Option Error
  trace : List (Event F)

/-- The method `ChargingClient.FindStationsAlongRoute`. -/
def FindStationsAlongRoute (w : World F) (waypoints : List (F × F)) (corridorKm : F) :
    StationsRun F :=
  let r := waypointLoop w corridorKm 0 waypoints
    { allStations := [], seenStations := fun _ => false } []
  { stations := r.1.allStations, err := none, trace := r.2 }

/-! ## `internal/services/route_service.go` -/

structure RouteWithCharging (F : Type) where
  Route : Route F
  ChargingStations : List (ChargingStation F)
deriving DecidableEq

/-- The result of a call together with the collaborator calls made, in order. -/
structure Run (F : Type) where
  trace : List (Event F)
  result : Outcome (RouteWithCharging F)

def isValidLatitude (lat : F) : Bool :=
  Float64.ge lat (Float64.ofInt (-90)) && Float64.le lat (Float64.ofInt 90)

def isValidLongitude (lon : F) : Bool :=
  Float64.ge lon (Float64.ofInt (-180)) && Float64.le lon (Float64.ofInt 180)

def validateLocations (start end_ : Location F) : Bool :=
  isValidLatitude start.Latitude &&
    isValidLatitude end_.Latitude &&
    isValidLongitude start.Longitude &&
    isValidLongitude end_.Longitude

/-- The record `saveRoute` builds from a route whose first segment is `first`. -/
def savedRouteOf (route : Route F) (first : RouteSegment F) : SavedRoute F :=
  { UserID := route.UserID
    StartLat := route.StartLocation.Latitude
    StartLng := route.StartLocation.Longitude
    EndLat := route.EndLocation.Latitude
    EndLng := route.EndLocation.Longitude
    Distance := route.TotalDistance
    Duration := Float64.toInt64 (Seconds route.TotalDuration : F)
    CO2Emission := route.TotalEmission
    TransportMode := first.Mode
    StartAddress := route.StartLocation.Address
    EndAddress := route.EndLocation.Address }

/-- The method `RouteService.saveRoute`: the record handed to `postgres.SaveRoute`
and the error that call returns; `none` when `route.Segments[0]` is out of range. -/
def saveRoute (w : World F) (route : Route F) : Option (SavedRoute F × Option Error) :=
  match route.Segments with
  | [] => none
  | first :: _ =>
    some (savedRouteOf route first, (w.create (savedRouteOf route first)).map Error.external)

/-- The pattern `updateTrafficPattern` builds; `now` is its reading of the clock. -/
def observedPattern (start end_ : Location F) (duration : Int) (now : Time) :
    TrafficPattern F :=
  { StartLat := start.Latitude
    StartLng := start.Longitude
    EndLat := end_.Latitude
    EndLng := end_.Longitude
    DayOfWeek := now.Weekday
    HourOfDay := now.Hour
    Duration := Seconds duration
    Timestamp := now
    SampleCount := 1 }

/-- The method `RouteService.updateTrafficPattern`.  It returns nothing: the
error of `SaveTrafficPattern` is assigned to `_`, and what is left is the call
made.  The clock is read a third time here and a fourth time in
`SaveTrafficPattern`. -/
def updateTrafficPattern (w : World F) (start end_ : Location F) (duration : Int) :
    Event F :=
  (SaveTrafficPattern w (observedPattern start end_ duration (w.now 2)) (w.now 3)).1

/-- The variables the loop over `prefs.PreferredModes` updates. -/
structure LoopState (F : Type) where
  segments : List (RouteSegment F)
  totalDistance : F
  totalEmission : F
  totalDuration : Int
  trace : List (Event F)

/-- The segment after the adjustment
`if pattern != nil { segment.Duration = time.Duration(pattern.Duration) * time.Second }`. -/
def adjustDuration (pattern : Option (TrafficPattern F)) (segment : RouteSegment F) :
    RouteSegment F :=
  match pattern with
  | some p => { segment with Duration := wrapInt64 (Float64.toInt64 p.Duration * Second) }
  | none => segment

/-- The loop `for _, mode := range prefs.PreferredModes`; `k` numbers the
Directions call. -/
def modeLoop (w : World F) (start end_ : Location F) (pattern : Option (TrafficPattern F)) :
    Nat → List TransportMode → LoopState F → LoopState F
  | _, [], st => st
  | k, mode :: rest, st =>
    match GetRoute (w.directions k) start end_ mode with
    | .error _ =>
      modeLoop w start end_ pattern (k + 1) rest
        { st with trace := st.trace ++ [Event.directions (directionsRequest start end_ mode)] }
    | .ok segment =>
      modeLoop w start end_ pattern (k + 1) rest
        { segments := st.segments ++ [adjustDuration pattern segment]
          totalDistance := Float64.add st.totalDistance (adjustDuration pattern segment).Distance
          totalEmission := Float64.add st.totalEmission (adjustDuration pattern segment).CO2Emission
          totalDuration := wrapInt64 (st.totalDuration + (adjustDuration pattern segment).Duration)
          trace := st.trace ++ [Event.directions (directionsRequest start end_ mode)] }

/-- The state of the loop variables before the first iteration. -/
def initialState (trace : List (Event F)) : LoopState F :=
  { segments := []
    totalDistance := Float64.ofInt 0
    totalEmission := Float64.ofInt 0
    totalDuration := 0
    trace := trace }

/-- The route `CalculateRoute` assembles from the final loop state. -/
def assembleRoute (st : LoopState F) (start end_ : Location F) (userID : String)
    (createdAt : Time) : Route F :=
  { ID := ""
    UserID := userID
    StartLocation := start
    EndLocation := end_
    Segments := st.segments
    TotalDistance := st.totalDistance
    TotalDuration := st.totalDuration
    TotalEmission := st.totalEmission
    CreatedAt := createdAt }

/-- The tail of `CalculateRoute`, from the empty-result check on. -/
def finishRoute (w : World F) (start end_ : Location F) (userID : String)
    (st : LoopState F) : Run F :=
  if st.segments.length = 0 then
    { trace := st.trace
      result := .error (Error.new "no valid routes found for any preferred mode") }
  else
    let waypoints : List (F × F) :=
      [(start.Latitude, start.Longitude)] ++ [(end_.Latitude, end_.Longitude)]
    let route := assembleRoute st start end_ userID (w.now 1)
    match saveRoute w route with
    | none => { trace := st.trace, result := .panic }
    | some (saved, some err) =>
      { trace := st.trace ++ [Event.create saved], result := .error err }
    | some (saved, none) =>
      match st.segments with
      | [] => { trace := st.trace ++ [Event.create saved], result := .panic }
      | first :: _ =>
        let upsert := updateTrafficPattern w start end_ first.Duration
        let found := FindStationsAlongRoute w waypoints (Float64.ofInt 2)
        let stations := if found.err.isSome then [] else found.stations
        { trace := st.trace ++ [Event.create saved] ++ [upsert] ++ found.trace
          result := .ok { Route := route, ChargingStations := stations } }

/-- The method `RouteService.CalculateRoute`. -/
def CalculateRoute (w : World F) (start end_ : Location F) (prefs : RoutePreferences F)
    (userID : String) : Run F :=
  if !validateLocations start end_ then
    { trace := [], result := .error (Error.new "invalid locations provided") }
  else
    let now := w.now 0
    let lookup := Event.findOne
      (getTrafficPatternFilter start.Latitude start.Longitude end_.Latitude end_.Longitude
        now.Weekday now.Hour)
    match GetTrafficPattern w start.Latitude start.Longitude end_.Latitude end_.Longitude
        now.Weekday now.Hour with
    | .error err => { trace := [lookup], result := .error err }
    | .ok pattern =>
      finishRoute w start end_ userID
        (modeLoop w start end_ pattern 0 prefs.PreferredModes (initialState [lookup]))

/-! ## Specification-side definitions -/

/-- The world `w` with the behaviour of `collection.UpdateOne` replaced by `u`. -/
def World.withUpdateOne (w : World F)
    (u : TrafficFilter F → TrafficUpdate F → Option LibError) : World F :=
  { w with updateOne := u }

/-- The numbering of calls that leaves out call number `i`: calls before `i` keep
their number, later ones move down by one. -/
def skipCall (i : Nat) (g : Nat → String → HttpOutcome F) : Nat → String → HttpOutcome F :=
  fun k => if k < i then g k else g (k + 1)

/-- The world `w` with the behaviour of the HTTP client replaced by `g`. -/
def World.withHttpGet (w : World F) (g : Nat → String → HttpOutcome F) : World F :=
  { w with httpGet := g }

/-- The results of the Directions provider (`GetRoute`) for the positions of
`modes` whose call succeeded, in the order of `modes`; position `i` of
`modes` is answered by call number `k + i`. -/
def successfulSegmentsFrom (w : World F) (start end_ : Location F) (k : Nat)
    (modes : List TransportMode) : List (RouteSegment F) :=
  (modes.enumFrom k).filterMap
    (fun km => (GetRoute (w.directions km.1) start end_ km.2).toOption)

/-- The provider results for the successful positions of the preference list. -/
def successfulSegments (w : World F) (start end_ : Location F)
    (modes : List TransportMode) : List (RouteSegment F) :=
  successfulSegmentsFrom w start end_ 0 modes

/-- The per-kilometre emission factor of the specification, in grams: 120 for
car, 60 for public transit, 0 for bicycle and walking and 0 for every other
mode. -/
def emissionFactor (mode : TransportMode) : Int :=
  if mode = Car then 120
  else if mode = PublicTransit then 60
  else 0

/-- The sum of a list of `float64` values in Go arithmetic, taken from left to
right starting at the zero value. -/
def sumFloat64 (xs : List F) : F := xs.foldl Float64.add (Float64.ofInt 0)

/-- The station lists of the lookups that succeeded, in waypoint order;
waypoint `i` is answered by lookup number `k + i`. -/
def successfulLookupsFrom (w : World F) (corridorKm : F) (k : Nat)
    (waypoints : List (F × F)) : List (List (ChargingStation F)) :=
  (waypoints.enumFrom k).filterMap
    (fun kw => (FindNearbyStations w kw.1 kw.2.1 kw.2.2 corridorKm).toOption)

/-! ## Auxiliary definitions for the proofs -/

/-- The event of the historical lookup of `CalculateRoute`. -/
def lookupEvent (w : World F) (start end_ : Location F) : Event F :=
  Event.findOne
    (getTrafficPatternFilter start.Latitude start.Longitude end_.Latitude end_.Longitude
      (w.now 0).Weekday (w.now 0).Hour)

/-- The historical lookup of `CalculateRoute`. -/
def lookupPattern (w : World F) (start end_ : Location F) :
    Except Error (Option (TrafficPattern F)) :=
  GetTrafficPattern w start.Latitude start.Longitude end_.Latitude end_.Longitude
    (w.now 0).Weekday (w.now 0).Hour

/-- The loop state of `CalculateRoute` after the loop over the preferred modes. -/
def finalState (w : World F) (start end_ : Location F) (prefs : RoutePreferences F)
    (pattern : Option (TrafficPattern F)) : LoopState F :=
  modeLoop w start end_ pattern 0 prefs.PreferredModes (initialState [lookupEvent w start end_])

/-- The waypoints `CalculateRoute` hands to the charging client. -/
def routeWaypoints (start end_ : Location F) : List (F × F) :=
  [(start.Latitude, start.Longitude), (end_.Latitude, end_.Longitude)]

/-- The record `CalculateRoute` hands to `postgres.SaveRoute` when the final loop
state starts with the segment `first`. -/
def savedRecord (w : World F) (start end_ : Location F) (prefs : RoutePreferences F)
    (userID : String) (pattern : Option (TrafficPattern F)) (first : RouteSegment F) :
    SavedRoute F :=
  savedRouteOf (assembleRoute (finalState w start end_ prefs pattern) start end_ userID (w.now 1))
    first

/-- The totals of a loop state are the sums over its segments. -/
def Totalled (st : LoopState F) : Prop :=
  st.totalDistance = sumFloat64 (st.segments.map (fun s => s.Distance)) ∧
  st.totalEmission = sumFloat64 (st.segments.map (fun s => s.CO2Emission)) ∧
  st.totalDuration = wrapInt64 ((st.segments.map (fun s => s.Duration)).sum)

/-- The map `seenStations` holds exactly the IDs of `allStations`, and these are
pairwise distinct. -/
def StationState.Consistent (st : StationState F) : Prop :=
  (∀ id, st.seenStations id = true ↔ id ∈ st.allStations.map (fun s => s.ID)) ∧
  (st.allStations.map (fun s => s.ID)).Nodup

/-- The state of `FindStationsAlongRoute` before the first waypoint. -/
def emptyStations : StationState F :=
  { allStations := [], seenStations := fun _ => false }

def Event.isCreate : Event F → Bool
  | .create _ => true
  | _ => false

def Event.isUpdateOne : Event F → Bool
  | .updateOne _ _ => true
  | _ => false

def Event.isHttpGet : Event F → Bool
  | .httpGet _ => true
  | _ => false

/-! ## The collection `traffic_patterns`

The MongoDB server is a collaborator.  Its behaviour on the two operations the
program sends is modelled after the documented semantics of the operators
(`$inc` adds to a field and creates an absent one with the increment as its
value, `$set` overwrites, an upsert without a match inserts a document made of
the equality fields of the filter and the update applied to it), which is also
the contract the specification gives for the Traffic History Store: the upsert
"increments sample count, accumulates duration server-side". -/

/-- A document of the collection `traffic_patterns`. -/
structure TrafficDocument (F : Type) where
  start_lat : F
  start_lng : F
  end_lat : F
  end_lng : F
  day_of_week : Int
  hour_of_day : Int
  sample_count : Int
  duration : F
  timestamp : Time
deriving DecidableEq, Repr

/-- The document agrees with the filter on the six key fields. -/
def TrafficDocument.satisfies [DecidableEq F] (doc : TrafficDocument F)
    (filter : TrafficFilter F) : Bool :=
  decide (doc.start_lat = filter.start_lat ∧ doc.start_lng = filter.start_lng ∧
    doc.end_lat = filter.end_lat ∧ doc.end_lng = filter.end_lng ∧
    doc.day_of_week = filter.day_of_week ∧ doc.hour_of_day = filter.hour_of_day)

/-- The document an upsert inserts when no document satisfies the filter. -/
def insertedDocument (filter : TrafficFilter F) (update : TrafficUpdate F) :
    TrafficDocument F :=
  { start_lat := filter.start_lat
    start_lng := filter.start_lng
    end_lat := filter.end_lat
    end_lng := filter.end_lng
    day_of_week := filter.day_of_week
    hour_of_day := filter.hour_of_day
    sample_count := update.inc_sample_count
    duration := update.inc_duration
    timestamp := update.set_timestamp }

/-- The update document of `SaveTrafficPattern` applied to a document. -/
def applyUpdate (update : TrafficUpdate F) (doc : TrafficDocument F) : TrafficDocument F :=
  { doc with
    sample_count := doc.sample_count + update.inc_sample_count
    duration := Float64.add doc.duration update.inc_duration
    timestamp := update.set_timestamp }

/-- The operation `UpdateOne(filter, update)` with `SetUpsert(true)` on the
collection: the first document that satisfies the filter is updated; when there
is none, a document is inserted. -/
def updateOneUpsert [DecidableEq F] (filter : TrafficFilter F) (update : TrafficUpdate F) :
    List (TrafficDocument F) → List (TrafficDocument F)
  | [] => [insertedDocument filter update]
  | doc :: rest =>
    if doc.satisfies filter then applyUpdate update doc :: rest
    else doc :: updateOneUpsert filter update rest

/-- The decoding of a document into the struct `TrafficPattern` by its `bson`
tags; the tags of `EndLat` and `EndLng` are `end_lng` and `end_lat`. -/
def decodePattern (doc : TrafficDocument F) : TrafficPattern F :=
  { StartLat := doc.start_lat
    StartLng := doc.start_lng
    EndLat := doc.end_lng
    EndLng := doc.end_lat
    DayOfWeek := doc.day_of_week
    HourOfDay := doc.hour_of_day
    Duration := doc.duration
    Timestamp := doc.timestamp
    SampleCount := doc.sample_count }

/-- The operation `FindOne(filter).Decode(&pattern)` on the collection. -/
def findOneDecode [DecidableEq F] (filter : TrafficFilter F) :
    List (TrafficDocument F) → Except LibError (TrafficPattern F)
  | [] => .error ErrNoDocuments
  | doc :: rest =>
    if doc.satisfies filter then .ok (decodePattern doc) else findOneDecode filter rest

/-- The world `w` with the traffic store holding the documents `store`. -/
def World.withStore [DecidableEq F] (w : World F) (store : List (TrafficDocument F)) :
    World F :=
  { w with findOne := fun filter => findOneDecode filter store }

/-- The collection after one successful call of `SaveTrafficPattern(pattern)`. -/
def storeAfterSave [DecidableEq F] (store : List (TrafficDocument F))
    (pattern : TrafficPattern F) (now : Time) : List (TrafficDocument F) :=
  updateOneUpsert (saveTrafficPatternCall pattern now).1 (saveTrafficPatternCall pattern now).2
    store

/-- The pattern `updateTrafficPattern` would build for the key `key` and the
observed duration `duration`, in seconds. -/
def observationFor (key : TrafficFilter F) (duration : F) (now : Time) : TrafficPattern F :=
  { StartLat := key.start_lat
    StartLng := key.start_lng
    EndLat := key.end_lat
    EndLng := key.end_lng
    DayOfWeek := key.day_of_week
    HourOfDay := key.hour_of_day
    Duration := duration
    Timestamp := now
    SampleCount := 1 }

/-- The collection after the observed durations `durations` were saved, one
after the other, for the key `key`. -/
def storeAfterSaves [DecidableEq F] (key : TrafficFilter F) (now : Time)
    (durations : List F) (store : List (TrafficDocument F)) : List (TrafficDocument F) :=
  durations.foldl (fun st d => storeAfterSave st (observationFor key d now) now) store

/-- The running mean `(d1 + ... + dn) / n` of the specification, in `float64`
arithmetic. -/
def runningMean (durations : List F) : F :=
  Float64.div (sumFloat64 durations) (Float64.ofInt durations.length)

end Operations

section Validity

variable {F : Type} [Float64 F]

/-- The Geocoordinate Validator of the specification: the latitude lies in
[-90, 90] and the longitude in [-180, 180], bounds included, in the order of
`float64`. -/
def Location.Valid (loc : Location F) : Prop :=
  Float64.le (Float64.ofInt (-90)) loc.Latitude = true ∧
  Float64.le loc.Latitude (Float64.ofInt 90) = true ∧
  Float64.le (Float64.ofInt (-180)) loc.Longitude = true ∧
  Float64.le loc.Longitude (Float64.ofInt 180) = true

instance (loc : Location F) : Decidable loc.Valid := by
  unfold Location.Valid
  infer_instance

end Validity

/-! ## Concrete inputs -/

/-- Berlin, as in the scenario of the specification. -/
def berlin : Location Frac := { Latitude := ⟨1313, 25⟩, Longitude := ⟨2681, 200⟩, Address := "" }

/-- Munich, as in the scenario of the specification. -/
def munich : Location Frac := { Latitude := ⟨48137, 1000⟩, Longitude := ⟨463, 40⟩, Address := "" }

def noon : Time := { Weekday := 3, Hour := 12, unixNano := 0 }

/-- A world with an empty traffic store in which every write succeeds, the
Directions API fails on its first call and then answers 500000 m in 18000 s,
and the charging locator finds nothing. -/
def scenarioWorld : World Frac :=
  { now := fun _ => noon
    findOne := fun _ => .error ErrNoDocuments
    updateOne := fun _ _ => none
    directions := fun k _ =>
      if k = 0 then .error ⟨7⟩
      else .ok [{ Legs := [{ Duration := 18000, DistanceMeters := 500000 }] }]
    create := fun _ => none
    httpGet := fun _ _ => .response 200 (.ok []) }

def scenarioPrefs : RoutePreferences Frac :=
  { PreferredModes := [Car, Bicycle]
    AvoidHighways := false
    MaxWalkingDistance := ⟨0, 1⟩
    PrioritizeEmission := false
    MaxTransfers := 0 }


/-- The scenario world with a Directions API that fails on every call. -/
def allFailWorld : World Frac :=
  { scenarioWorld with directions := fun _ _ => .error ⟨7⟩ }

def emptyPrefs : RoutePreferences Frac :=
  { scenarioPrefs with PreferredModes := [] }

/-- A point whose latitude, 91, is out of range. -/
def beyondThePole : Location Frac := { Latitude := ⟨91, 1⟩, Longitude := ⟨0, 1⟩, Address := "" }

/-- The scenario world with a route store that rejects every record. -/
def saveFailsWorld : World Frac :=
  { scenarioWorld with create := fun _ => some ⟨11⟩ }

/-- The scenario world with a traffic store whose lookup fails with a
connectivity error. -/
def lookupFailsWorld : World Frac :=
  { scenarioWorld with findOne := fun _ => .error ⟨5⟩ }

/-- The record handed to `SaveRoute` in the scenario. -/
def scenarioSaved : SavedRoute Frac :=
  { UserID := "u1"
    StartLat := berlin.Latitude
    StartLng := berlin.Longitude
    EndLat := munich.Latitude
    EndLng := munich.Longitude
    Distance := ⟨500000, 1⟩
    Duration := 18000
    CO2Emission := ⟨0, 1⟩
    TransportMode := "bicycle"
    StartAddress := ""
    EndAddress := "" }

/-- A charging station with the given ID and title. -/
def station (id : Int) (title : String) : ChargingStation Frac :=
  { ID := id
    AddressInfo := { Title := title, Address := "", Latitude := ⟨0, 1⟩, Longitude := ⟨0, 1⟩ }
    Connections := []
    UsageTypeTitle := "" }

/-- The scenario world with a charging locator that fails at the first waypoint
(status 503) and finds the stations 7, 7 again and 9 at the second. -/
def chargingWorld : World Frac :=
  { scenarioWorld with
    httpGet := fun k _ =>
      if k = 0 then .response 503 (.ok [])
      else .response 200 (.ok [station 7 "a", station 7 "b", station 9 "c"]) }

/-- The scenario world with a charging locator that finds the stations 7 and 8
at the first waypoint and the stations 7, 7 again and 9 at the second. -/
def overlapWorld : World Frac :=
  { scenarioWorld with
    httpGet := fun k _ =>
      if k = 0 then .response 200 (.ok [station 7 "a", station 8 "d"])
      else .response 200 (.ok [station 7 "a", station 7 "b", station 9 "c"]) }

/-- A behaviour of the HTTP client in which every request fails to be sent. -/
def httpDown : Nat → String → HttpOutcome Frac := fun _ _ => .doFailed ⟨3⟩

/-- The key of the Berlin to Munich request on a Wednesday at noon. -/
def berlinMunichKey : TrafficFilter Frac :=
  getTrafficPatternFilter berlin.Latitude berlin.Longitude munich.Latitude munich.Longitude 3 12

/-- The collection after two trips of 600 s and 1200 s were recorded for
`berlinMunichKey`, starting from an empty collection. -/
def twoTripStore : List (TrafficDocument Frac) :=
  storeAfterSaves berlinMunichKey noon [⟨600, 1⟩, ⟨1200, 1⟩] []

/-- The bicycle segment of the scenario. -/
def scenarioSegment : RouteSegment Frac :=
  { StartLocation := berlin
    EndLocation := munich
    Mode := "bicycle"
    Duration := 18000000000000
    Distance := ⟨500000, 1⟩
    CO2Emission := ⟨0, 1⟩ }

/-- The route `CalculateRoute` returns in the scenario. -/
def scenarioRoute : Route Frac :=
  { ID := ""
    UserID := "u1"
    StartLocation := berlin
    EndLocation := munich
    Segments := [scenarioSegment]
    TotalDistance := ⟨500000, 1⟩
    TotalDuration := 18000000000000
    TotalEmission := ⟨0, 1⟩
    CreatedAt := noon }

def scenarioResult : RouteWithCharging Frac :=
  { Route := scenarioRoute, ChargingStations := [] }

/-- A stored traffic pattern for the Berlin to Munich key whose `duration` is `d`. -/
def storedPattern (d : Frac) : TrafficPattern Frac :=
  { StartLat := berlin.Latitude
    StartLng := berlin.Longitude
    EndLat := munich.Latitude
    EndLng := munich.Longitude
    DayOfWeek := 3
    HourOfDay := 12
    Duration := d
    Timestamp := noon
    SampleCount := 1 }

/-- The scenario world with a traffic store that answers `storedPattern d` and a
Directions API that answers 500000 m in 18000 s on every call. -/
def patternWorld (d : Frac) : World Frac :=
  { scenarioWorld with
    findOne := fun _ => .ok (storedPattern d)
    directions := fun _ _ => .ok [{ Legs := [{ Duration := 18000, DistanceMeters := 500000 }] }] }

def bicyclePrefs : RoutePreferences Frac :=
  { scenarioPrefs with PreferredModes := [Bicycle] }

/-- The single segment returned in `patternWorld d` when the override sets its
duration to `seconds` whole seconds. -/
def overriddenSegment (seconds : Int) : RouteSegment Frac :=
  { scenarioSegment with Duration := seconds * 1000000000 }

/-- The result returned in `patternWorld d` for `bicyclePrefs`. -/
def overriddenResult (seconds : Int) : RouteWithCharging Frac :=
  { Route :=
      { scenarioRoute with
        Segments := [overriddenSegment seconds]
        TotalDuration := seconds * 1000000000 }
    ChargingStations := [] }

/-! ## Lemmas on the loop over the preferred modes -/

section Lemmas

variable {F : Type} [Float64 F]

theorem wrapInt64_add_wrapInt64 (x d : Int) :
    wrapInt64 (wrapInt64 x + d) = wrapInt64 (x + d) := by
  unfold wrapInt64
  omega

theorem wrapInt64_of_inRange (x : Int) (hlo : -(2 ^ 63) ≤ x) (hhi : x < 2 ^ 63) :
    wrapInt64 x = x := by
  unfold wrapInt64
  omega

theorem successfulSegmentsFrom_nil (w : World F) (start end_ : Location F) (k : Nat) :
    successfulSegmentsFrom w start end_ k [] = [] := rfl

theorem successfulSegmentsFrom_cons_error (w : World F) (start end_ : Location F) (k : Nat)
    (mode : TransportMode) (rest : List TransportMode) (err : Error)
    (h : GetRoute (w.directions k) start end_ mode = .error err) :
    successfulSegmentsFrom w start end_ k (mode :: rest)
      = successfulSegmentsFrom w start end_ (k + 1) rest := by
  simp [successfulSegmentsFrom, List.enumFrom_cons, List.filterMap_cons, h, Except.toOption]

theorem successfulSegmentsFrom_cons_ok (w : World F) (start end_ : Location F) (k : Nat)
    (mode : TransportMode) (rest : List TransportMode) (segment : RouteSegment F)
    (h : GetRoute (w.directions k) start end_ mode = .ok segment) :
    successfulSegmentsFrom w start end_ k (mode :: rest)
      = segment :: successfulSegmentsFrom w start end_ (k + 1) rest := by
  simp [successfulSegmentsFrom, List.enumFrom_cons, List.filterMap_cons, h, Except.toOption]

/-- The loop appends to `segments` the adjusted provider results of the
successful positions, in order. -/
theorem modeLoop_segments (w : World F) (start end_ : Location F)
    (pattern : Option (TrafficPattern F)) (modes : List TransportMode) :
    ∀ (k : Nat) (st : LoopState F),
      (modeLoop w start end_ pattern k modes st).segments
        = st.segments
          ++ (successfulSegmentsFrom w start end_ k modes).map (adjustDuration pattern) := by
  induction modes with
  | nil => intro k st; simp [modeLoop, successfulSegmentsFrom_nil]
  | cons mode rest ih =>
    intro k st
    cases h : GetRoute (w.directions k) start end_ mode with
    | error err =>
      rw [successfulSegmentsFrom_cons_error w start end_ k mode rest err h]
      simp only [modeLoop, h]
      rw [ih]
    | ok segment =>
      rw [successfulSegmentsFrom_cons_ok w start end_ k mode rest segment h]
      simp only [modeLoop, h]
      rw [ih]
      simp

/-- The loop records one Directions call per preferred mode, in order, and
no other call. -/
theorem modeLoop_trace (w : World F) (start end_ : Location F)
    (pattern : Option (TrafficPattern F)) (modes : List TransportMode) :
    ∀ (k : Nat) (st : LoopState F),
      (modeLoop w start end_ pattern k modes st).trace
        = st.trace ++ modes.map (fun mode => Event.directions (directionsRequest start end_ mode)) := by
  induction modes with
  | nil => intro k st; simp [modeLoop]
  | cons mode rest ih =>
    intro k st
    cases h : GetRoute (w.directions k) start end_ mode with
    | error err => simp only [modeLoop, h]; rw [ih]; simp
    | ok segment => simp only [modeLoop, h]; rw [ih]; simp

theorem initialState_totalled (trace : List (Event F)) :
    Totalled (initialState trace) := by
  refine ⟨rfl, rfl, ?_⟩
  simp [initialState, wrapInt64]

theorem modeLoop_totalled (w : World F) (start end_ : Location F)
    (pattern : Option (TrafficPattern F)) (modes : List TransportMode) :
    ∀ (k : Nat) (st : LoopState F), Totalled st →
      Totalled (modeLoop w start end_ pattern k modes st) := by
  induction modes with
  | nil => intro k st hst; simpa [modeLoop] using hst
  | cons mode rest ih =>
    intro k st hst
    cases h : GetRoute (w.directions k) start end_ mode with
    | error err =>
      simp only [modeLoop, h]
      exact ih _ _ hst
    | ok segment =>
      simp only [modeLoop, h]
      apply ih
      obtain ⟨hd, he, ht⟩ := hst
      refine ⟨?_, ?_, ?_⟩
      · simp [sumFloat64, List.foldl_append, hd]
      · simp [sumFloat64, List.foldl_append, he]
      · simp only [ht, List.map_append, List.sum_append, List.map_cons, List.map_nil,
          List.sum_cons, List.sum_nil, add_zero]
        exact wrapInt64_add_wrapInt64 _ _

/-! ## Case analysis of `CalculateRoute` -/

theorem CalculateRoute_invalid (w : World F) (start end_ : Location F)
    (prefs : RoutePreferences F) (userID : String)
    (h : validateLocations start end_ = false) :
    CalculateRoute w start end_ prefs userID
      = { trace := [], result := .error (Error.new "invalid locations provided") } := by
  simp [CalculateRoute, h]

theorem CalculateRoute_lookup_error (w : World F) (start end_ : Location F)
    (prefs : RoutePreferences F) (userID : String) (err : Error)
    (hv : validateLocations start end_ = true)
    (h : lookupPattern w start end_ = .error err) :
    CalculateRoute w start end_ prefs userID
      = { trace := [lookupEvent w start end_], result := .error err } := by
  unfold lookupPattern at h
  simp [CalculateRoute, hv, h, lookupEvent]

theorem CalculateRoute_lookup_ok (w : World F) (start end_ : Location F)
    (prefs : RoutePreferences F) (userID : String) (pattern : Option (TrafficPattern F))
    (hv : validateLocations start end_ = true)
    (h : lookupPattern w start end_ = .ok pattern) :
    CalculateRoute w start end_ prefs userID
      = finishRoute w start end_ userID (finalState w start end_ prefs pattern) := by
  unfold lookupPattern at h
  simp [CalculateRoute, hv, h, finalState, lookupEvent]

theorem finishRoute_nil (w : World F) (start end_ : Location F) (userID : String)
    (st : LoopState F) (h : st.segments = []) :
    finishRoute w start end_ userID st
      = { trace := st.trace
          result := .error (Error.new "no valid routes found for any preferred mode") } := by
  simp [finishRoute, h]

theorem finishRoute_save_error (w : World F) (start end_ : Location F) (userID : String)
    (st : LoopState F) (first : RouteSegment F) (rest : List (RouteSegment F)) (err : LibError)
    (h : st.segments = first :: rest)
    (hc : w.create (savedRouteOf (assembleRoute st start end_ userID (w.now 1)) first) = some err) :
    finishRoute w start end_ userID st
      = { trace := st.trace
            ++ [Event.create (savedRouteOf (assembleRoute st start end_ userID (w.now 1)) first)]
          result := .error (Error.external err) } := by
  have hs : (assembleRoute st start end_ userID (w.now 1)).Segments = first :: rest := h
  simp [finishRoute, h, saveRoute, hs, hc]

theorem finishRoute_save_ok (w : World F) (start end_ : Location F) (userID : String)
    (st : LoopState F) (first : RouteSegment F) (rest : List (RouteSegment F))
    (h : st.segments = first :: rest)
    (hc : w.create (savedRouteOf (assembleRoute st start end_ userID (w.now 1)) first) = none) :
    finishRoute w start end_ userID st
      = { trace := st.trace
            ++ [Event.create (savedRouteOf (assembleRoute st start end_ userID (w.now 1)) first)]
            ++ [updateTrafficPattern w start end_ first.Duration]
            ++ (FindStationsAlongRoute w (routeWaypoints start end_) (Float64.ofInt 2)).trace
          result := .ok
            { Route := assembleRoute st start end_ userID (w.now 1)
              ChargingStations :=
                (FindStationsAlongRoute w (routeWaypoints start end_) (Float64.ofInt 2)).stations } } := by
  have hs : (assembleRoute st start end_ userID (w.now 1)).Segments = first :: rest := h
  simp [finishRoute, h, saveRoute, hs, hc, routeWaypoints, FindStationsAlongRoute]

/-- Whatever `CalculateRoute` returns successfully was assembled from the final
loop state, which holds at least one segment. -/
theorem CalculateRoute_ok_inv (w : World F) (start end_ : Location F)
    (prefs : RoutePreferences F) (userID : String) (r : RouteWithCharging F)
    (h : (CalculateRoute w start end_ prefs userID).result = .ok r) :
    validateLocations start end_ = true ∧
    ∃ pattern first rest,
      lookupPattern w start end_ = .ok pattern ∧
      (finalState w start end_ prefs pattern).segments = first :: rest ∧
      w.create (savedRouteOf
        (assembleRoute (finalState w start end_ prefs pattern) start end_ userID (w.now 1)) first)
        = none ∧
      r.Route = assembleRoute (finalState w start end_ prefs pattern) start end_ userID (w.now 1) ∧
      r.ChargingStations
        = (FindStationsAlongRoute w (routeWaypoints start end_) (Float64.ofInt 2)).stations := by
  cases hv : validateLocations start end_ with
  | false => rw [CalculateRoute_invalid w start end_ prefs userID hv] at h; cases h
  | true =>
    refine ⟨rfl, ?_⟩
    cases hl : lookupPattern w start end_ with
    | error err => rw [CalculateRoute_lookup_error w start end_ prefs userID err hv hl] at h; cases h
    | ok pattern =>
      rw [CalculateRoute_lookup_ok w start end_ prefs userID pattern hv hl] at h
      cases hseg : (finalState w start end_ prefs pattern).segments with
      | nil => rw [finishRoute_nil w start end_ userID _ hseg] at h; cases h
      | cons first rest =>
        cases hc : w.create (savedRouteOf
            (assembleRoute (finalState w start end_ prefs pattern) start end_ userID (w.now 1))
            first) with
        | some err =>
          rw [finishRoute_save_error w start end_ userID _ first rest err hseg hc] at h; cases h
        | none =>
          rw [finishRoute_save_ok w start end_ userID _ first rest hseg hc] at h
          injection h with h
          subst h
          exact ⟨pattern, first, rest, rfl, hseg, hc, rfl, rfl⟩

theorem finalState_segments (w : World F) (start end_ : Location F)
    (prefs : RoutePreferences F) (pattern : Option (TrafficPattern F)) :
    (finalState w start end_ prefs pattern).segments
      = (successfulSegments w start end_ prefs.PreferredModes).map (adjustDuration pattern) := by
  simp [finalState, modeLoop_segments, initialState, successfulSegments]

theorem finalState_trace (w : World F) (start end_ : Location F)
    (prefs : RoutePreferences F) (pattern : Option (TrafficPattern F)) :
    (finalState w start end_ prefs pattern).trace
      = lookupEvent w start end_
        :: prefs.PreferredModes.map
            (fun mode => Event.directions (directionsRequest start end_ mode)) := by
  simp [finalState, modeLoop_trace, initialState]

theorem finalState_totalled (w : World F) (start end_ : Location F)
    (prefs : RoutePreferences F) (pattern : Option (TrafficPattern F)) :
    Totalled (finalState w start end_ prefs pattern) :=
  modeLoop_totalled w start end_ pattern _ _ _ (initialState_totalled _)

/-- The five ways a call of `CalculateRoute` can go. -/
theorem CalculateRoute_cases (w : World F) (start end_ : Location F)
    (prefs : RoutePreferences F) (userID : String) :
    (validateLocations start end_ = false ∧
      CalculateRoute w start end_ prefs userID
        = { trace := [], result := .error (Error.new "invalid locations provided") }) ∨
    (validateLocations start end_ = true ∧ ∃ err,
      lookupPattern w start end_ = .error err ∧
      CalculateRoute w start end_ prefs userID
        = { trace := [lookupEvent w start end_], result := .error err }) ∨
    (validateLocations start end_ = true ∧ ∃ pattern,
      lookupPattern w start end_ = .ok pattern ∧
      (finalState w start end_ prefs pattern).segments = [] ∧
      CalculateRoute w start end_ prefs userID
        = { trace := (finalState w start end_ prefs pattern).trace
            result := .error (Error.new "no valid routes found for any preferred mode") }) ∨
    (validateLocations start end_ = true ∧ ∃ pattern first rest err,
      lookupPattern w start end_ = .ok pattern ∧
      (finalState w start end_ prefs pattern).segments = first :: rest ∧
      w.create (savedRecord w start end_ prefs userID pattern first) = some err ∧
      CalculateRoute w start end_ prefs userID
        = { trace := (finalState w start end_ prefs pattern).trace
              ++ [Event.create (savedRecord w start end_ prefs userID pattern first)]
            result := .error (Error.external err) }) ∨
    (validateLocations start end_ = true ∧ ∃ pattern first rest,
      lookupPattern w start end_ = .ok pattern ∧
      (finalState w start end_ prefs pattern).segments = first :: rest ∧
      w.create (savedRecord w start end_ prefs userID pattern first) = none ∧
      CalculateRoute w start end_ prefs userID
        = { trace := (finalState w start end_ prefs pattern).trace
              ++ [Event.create (savedRecord w start end_ prefs userID pattern first)]
              ++ [updateTrafficPattern w start end_ first.Duration]
              ++ (FindStationsAlongRoute w (routeWaypoints start end_) (Float64.ofInt 2)).trace
            result := .ok
              { Route := assembleRoute (finalState w start end_ prefs pattern) start end_ userID
                  (w.now 1)
                ChargingStations :=
                  (FindStationsAlongRoute w (routeWaypoints start end_)
                    (Float64.ofInt 2)).stations } }) := by
  cases hv : validateLocations start end_ with
  | false => exact Or.inl ⟨rfl, CalculateRoute_invalid w start end_ prefs userID hv⟩
  | true =>
    right
    cases hl : lookupPattern w start end_ with
    | error err =>
      exact Or.inl ⟨rfl, err, rfl, CalculateRoute_lookup_error w start end_ prefs userID err hv hl⟩
    | ok pattern =>
      right
      rw [CalculateRoute_lookup_ok w start end_ prefs userID pattern hv hl]
      cases hseg : (finalState w start end_ prefs pattern).segments with
      | nil =>
        exact Or.inl ⟨rfl, pattern, rfl, hseg, finishRoute_nil w start end_ userID _ hseg⟩
      | cons first rest =>
        right
        cases hc : w.create (savedRecord w start end_ prefs userID pattern first) with
        | some err =>
          exact Or.inl ⟨rfl, pattern, first, rest, err, rfl, hseg, hc,
            finishRoute_save_error w start end_ userID _ first rest err hseg hc⟩
        | none =>
          exact Or.inr ⟨rfl, pattern, first, rest, rfl, hseg, hc,
            finishRoute_save_ok w start end_ userID _ first rest hseg hc⟩

/-- No provider result is collected exactly when every call fails. -/
theorem successfulSegmentsFrom_eq_nil (w : World F) (start end_ : Location F)
    (modes : List TransportMode) :
    ∀ k : Nat,
      (∀ i mode, modes[i]? = some mode →
        ∃ err, GetRoute (w.directions (k + i)) start end_ mode = .error err) →
      successfulSegmentsFrom w start end_ k modes = [] := by
  induction modes with
  | nil => intro k _; rfl
  | cons mode rest ih =>
    intro k hall
    obtain ⟨err, herr⟩ := hall 0 mode (by simp)
    rw [successfulSegmentsFrom_cons_error w start end_ k mode rest err herr]
    apply ih
    intro i m hm
    have := hall (i + 1) m (by simpa using hm)
    rwa [show k + 1 + i = k + (i + 1) by omega]

/-! ## Lemmas on the charging-station search -/

/-- The search records one HTTP request per waypoint, in order, and no other call. -/
theorem waypointLoop_trace (w : World F) (corridorKm : F) (waypoints : List (F × F)) :
    ∀ (k : Nat) (st : StationState F) (trace : List (Event F)),
      (waypointLoop w corridorKm k waypoints st trace).2
        = trace ++ waypoints.map
            (fun wp => Event.httpGet (nearbyStationsURL wp.1 wp.2 corridorKm)) := by
  induction waypoints with
  | nil => intro k st trace; simp [waypointLoop]
  | cons wp rest ih =>
    intro k st trace
    cases h : FindNearbyStations w k wp.1 wp.2 corridorKm with
    | error err => simp only [waypointLoop, h]; rw [ih]; simp
    | ok stations => simp only [waypointLoop, h]; rw [ih]; simp

theorem FindStationsAlongRoute_trace (w : World F) (waypoints : List (F × F)) (corridorKm : F) :
    (FindStationsAlongRoute w waypoints corridorKm).trace
      = waypoints.map (fun wp => Event.httpGet (nearbyStationsURL wp.1 wp.2 corridorKm)) := by
  simp [FindStationsAlongRoute, waypointLoop_trace]

/-- The trace of a successful call of `CalculateRoute`, event by event. -/
theorem successTrace_mem (w : World F) (start end_ : Location F)
    (prefs : RoutePreferences F) (pattern : Option (TrafficPattern F))
    (saved : SavedRoute F) (duration : Int) (ev : Event F)
    (h : ev ∈ (finalState w start end_ prefs pattern).trace
          ++ [Event.create saved]
          ++ [updateTrafficPattern w start end_ duration]
          ++ (FindStationsAlongRoute w (routeWaypoints start end_) (Float64.ofInt 2)).trace) :
    ev = lookupEvent w start end_ ∨
    (∃ mode ∈ prefs.PreferredModes, ev = Event.directions (directionsRequest start end_ mode)) ∨
    ev = Event.create saved ∨
    ev = updateTrafficPattern w start end_ duration ∨
    (∃ wp ∈ routeWaypoints start end_,
      ev = Event.httpGet (nearbyStationsURL wp.1 wp.2 (Float64.ofInt 2))) := by
  simp only [finalState_trace, FindStationsAlongRoute_trace, List.mem_append, List.mem_cons,
    List.mem_map, List.mem_singleton, List.not_mem_nil, or_false] at h
  rcases h with ((((h | ⟨mode, hm, rfl⟩) | h) | h) | ⟨wp, hwp, rfl⟩)
  · exact Or.inl h
  · exact Or.inr (Or.inl ⟨mode, hm, rfl⟩)
  · exact Or.inr (Or.inr (Or.inl h))
  · exact Or.inr (Or.inr (Or.inr (Or.inl h)))
  · exact Or.inr (Or.inr (Or.inr (Or.inr ⟨wp, hwp, rfl⟩)))

theorem adjustDuration_none (segment : RouteSegment F) :
    adjustDuration (none : Option (TrafficPattern F)) segment = segment := rfl

theorem adjustDuration_some (p : TrafficPattern F) (segment : RouteSegment F) :
    adjustDuration (some p) segment
      = { segment with Duration := wrapInt64 (Float64.toInt64 p.Duration * Second) } := rfl

theorem adjustDuration_Mode (pattern : Option (TrafficPattern F)) (segment : RouteSegment F) :
    (adjustDuration pattern segment).Mode = segment.Mode := by
  cases pattern <;> rfl

theorem adjustDuration_Distance (pattern : Option (TrafficPattern F)) (segment : RouteSegment F) :
    (adjustDuration pattern segment).Distance = segment.Distance := by
  cases pattern <;> rfl

theorem adjustDuration_CO2Emission (pattern : Option (TrafficPattern F))
    (segment : RouteSegment F) :
    (adjustDuration pattern segment).CO2Emission = segment.CO2Emission := by
  cases pattern <;> rfl

/-- A success at some position of the list yields a non-empty list of results. -/
theorem successfulSegments_ne_nil (w : World F) (start end_ : Location F)
    (modes : List TransportMode) (k : Nat) (mode : TransportMode) (segment : RouteSegment F)
    (hk : modes[k]? = some mode)
    (hok : GetRoute (w.directions k) start end_ mode = .ok segment) :
    successfulSegments w start end_ modes ≠ [] := by
  apply List.ne_nil_of_mem (a := segment)
  unfold successfulSegments successfulSegmentsFrom
  rw [List.mem_filterMap]
  refine ⟨(k, mode), ?_, ?_⟩
  · have := (List.mk_add_mem_enumFrom_iff_getElem? (n := 0) (i := k) (x := mode) (l := modes)).2 hk
    simpa using this
  · simp [hok, Except.toOption]

theorem lookupPattern_miss (w : World F) (start end_ : Location F)
    (h : w.findOne (getTrafficPatternFilter start.Latitude start.Longitude end_.Latitude
          end_.Longitude (w.now 0).Weekday (w.now 0).Hour) = .error ErrNoDocuments) :
    lookupPattern w start end_ = .ok none := by
  simp [lookupPattern, GetTrafficPattern, h]

theorem lookupPattern_failure (w : World F) (start end_ : Location F) (err : LibError)
    (h : w.findOne (getTrafficPatternFilter start.Latitude start.Longitude end_.Latitude
          end_.Longitude (w.now 0).Weekday (w.now 0).Hour) = .error err)
    (hne : err ≠ ErrNoDocuments) :
    lookupPattern w start end_ = .error (Error.external err) := by
  simp [lookupPattern, GetTrafficPattern, h, hne]

theorem lookupPattern_found (w : World F) (start end_ : Location F) (p : TrafficPattern F)
    (h : w.findOne (getTrafficPatternFilter start.Latitude start.Longitude end_.Latitude
          end_.Longitude (w.now 0).Weekday (w.now 0).Hour) = .ok p) :
    lookupPattern w start end_ = .ok (some p) := by
  simp [lookupPattern, GetTrafficPattern, h]

/-- An error of the historical lookup is the error of the store, handed on as
it is, and is not the "no documents" signal. -/
theorem lookupPattern_error (w : World F) (start end_ : Location F) (err : Error)
    (h : lookupPattern w start end_ = .error err) :
    ∃ e : LibError, err = Error.external e ∧ e ≠ ErrNoDocuments ∧
      w.findOne (getTrafficPatternFilter start.Latitude start.Longitude end_.Latitude
        end_.Longitude (w.now 0).Weekday (w.now 0).Hour) = .error e := by
  unfold lookupPattern GetTrafficPattern at h
  cases hf : w.findOne (getTrafficPatternFilter start.Latitude start.Longitude end_.Latitude
      end_.Longitude (w.now 0).Weekday (w.now 0).Hour) with
  | ok p => rw [hf] at h; cases h
  | error e =>
    rw [hf] at h
    by_cases hne : e = ErrNoDocuments
    · simp [hne] at h
    · simp only [hne, if_false] at h
      injection h with h
      exact ⟨e, h.symm, hne, rfl⟩

/-! ## Lemmas on the deduplication -/

theorem emptyStations_consistent : (emptyStations : StationState F).Consistent := by
  constructor
  · intro id; simp [emptyStations]
  · simp [emptyStations]

theorem dedupLoop_spec (stations : List (ChargingStation F)) :
    ∀ st : StationState F, st.Consistent →
      (dedupLoop stations st).Consistent ∧
      (∀ id, id ∈ (dedupLoop stations st).allStations.map (fun s => s.ID)
        ↔ id ∈ st.allStations.map (fun s => s.ID) ∨ id ∈ stations.map (fun s => s.ID)) ∧
      (∀ s ∈ (dedupLoop stations st).allStations, s ∈ st.allStations ∨ s ∈ stations) := by
  induction stations with
  | nil =>
    intro st hst
    exact ⟨hst, by simp [dedupLoop], by simp [dedupLoop]⟩
  | cons station rest ih =>
    intro st hst
    by_cases hseen : st.seenStations station.ID = true
    · have hstep : dedupLoop (station :: rest) st = dedupLoop rest st := by
        simp [dedupLoop, hseen]
      rw [hstep]
      obtain ⟨hc, hids, hsub⟩ := ih st hst
      refine ⟨hc, ?_, ?_⟩
      · intro id
        rw [hids id]
        have hin := (hst.1 station.ID).1 hseen
        simp only [List.map_cons, List.mem_cons]
        constructor
        · rintro (h | h)
          · exact Or.inl h
          · exact Or.inr (Or.inr h)
        · rintro (h | h | h)
          · exact Or.inl h
          · exact Or.inl (h ▸ hin)
          · exact Or.inr h
      · intro s hs
        rcases hsub s hs with h | h
        · exact Or.inl h
        · exact Or.inr (List.mem_cons_of_mem _ h)
    · have hstep : dedupLoop (station :: rest) st
          = dedupLoop rest
              { allStations := st.allStations ++ [station]
                seenStations := fun id => if id = station.ID then true else st.seenStations id } := by
        simp [dedupLoop, hseen]
      rw [hstep]
      have hnotin : station.ID ∉ st.allStations.map (fun s => s.ID) :=
        fun hin => hseen ((hst.1 station.ID).2 hin)
      have hst2 : StationState.Consistent
          { allStations := st.allStations ++ [station]
            seenStations := fun id => if id = station.ID then true else st.seenStations id } := by
        constructor
        · intro id
          by_cases hid : id = station.ID
          · simp [hid]
          · simp [hid, hst.1 id]
        · simp only [List.map_append, List.map_cons, List.map_nil]
          rw [List.nodup_append]
          refine ⟨hst.2, List.nodup_singleton _, ?_⟩
          intro x hx hx2
          rw [List.mem_singleton] at hx2
          exact hnotin (hx2 ▸ hx)
      obtain ⟨hc, hids, hsub⟩ := ih _ hst2
      refine ⟨hc, ?_, ?_⟩
      · intro id
        rw [hids id]
        simp only [List.map_append, List.map_cons, List.map_nil, List.mem_append,
          List.mem_singleton, List.mem_cons]
        tauto
      · intro s hs
        rcases hsub s hs with h | h
        · simp only [List.mem_append, List.mem_singleton] at h
          rcases h with h | h
          · exact Or.inl h
          · exact Or.inr (h ▸ List.mem_cons_self _ _)
        · exact Or.inr (List.mem_cons_of_mem _ h)

theorem successfulLookupsFrom_nil (w : World F) (corridorKm : F) (k : Nat) :
    successfulLookupsFrom w corridorKm k [] = [] := rfl

theorem successfulLookupsFrom_cons_error (w : World F) (corridorKm : F) (k : Nat)
    (wp : F × F) (rest : List (F × F)) (err : Error)
    (h : FindNearbyStations w k wp.1 wp.2 corridorKm = .error err) :
    successfulLookupsFrom w corridorKm k (wp :: rest)
      = successfulLookupsFrom w corridorKm (k + 1) rest := by
  simp [successfulLookupsFrom, List.enumFrom_cons, List.filterMap_cons, h, Except.toOption]

theorem successfulLookupsFrom_cons_ok (w : World F) (corridorKm : F) (k : Nat)
    (wp : F × F) (rest : List (F × F)) (stations : List (ChargingStation F))
    (h : FindNearbyStations w k wp.1 wp.2 corridorKm = .ok stations) :
    successfulLookupsFrom w corridorKm k (wp :: rest)
      = stations :: successfulLookupsFrom w corridorKm (k + 1) rest := by
  simp [successfulLookupsFrom, List.enumFrom_cons, List.filterMap_cons, h, Except.toOption]

/-- The outer loop is the inner loop run over the successful lookups, in order:
a failed lookup leaves no mark on the stations. -/
theorem waypointLoop_stations (w : World F) (corridorKm : F) (waypoints : List (F × F)) :
    ∀ (k : Nat) (st : StationState F) (trace : List (Event F)),
      (waypointLoop w corridorKm k waypoints st trace).1
        = (successfulLookupsFrom w corridorKm k waypoints).foldl
            (fun acc stations => dedupLoop stations acc) st := by
  induction waypoints with
  | nil => intro k st trace; rfl
  | cons wp rest ih =>
    intro k st trace
    cases h : FindNearbyStations w k wp.1 wp.2 corridorKm with
    | error err =>
      rw [successfulLookupsFrom_cons_error w corridorKm k wp rest err h]
      simp only [waypointLoop, h]
      exact ih _ _ _
    | ok stations =>
      rw [successfulLookupsFrom_cons_ok w corridorKm k wp rest stations h]
      simp only [waypointLoop, h, List.foldl_cons]
      exact ih _ _ _

theorem foldl_dedupLoop_spec (found : List (List (ChargingStation F))) :
    ∀ st : StationState F, st.Consistent →
      (found.foldl (fun acc stations => dedupLoop stations acc) st).Consistent ∧
      (∀ id, id ∈ (found.foldl (fun acc stations => dedupLoop stations acc) st).allStations.map
            (fun s => s.ID)
        ↔ id ∈ st.allStations.map (fun s => s.ID) ∨ id ∈ found.flatten.map (fun s => s.ID)) ∧
      (∀ s ∈ (found.foldl (fun acc stations => dedupLoop stations acc) st).allStations,
        s ∈ st.allStations ∨ s ∈ found.flatten) := by
  induction found with
  | nil => intro st hst; exact ⟨hst, by simp, by simp⟩
  | cons stations rest ih =>
    intro st hst
    obtain ⟨hc1, hids1, hsub1⟩ := dedupLoop_spec stations st hst
    obtain ⟨hc, hids, hsub⟩ := ih _ hc1
    simp only [List.foldl_cons]
    refine ⟨hc, ?_, ?_⟩
    · intro id
      rw [hids id, hids1 id]
      simp only [List.flatten_cons, List.map_append, List.mem_append]
      tauto
    · intro s hs
      rcases hsub s hs with h | h
      · rcases hsub1 s h with h | h
        · exact Or.inl h
        · exact Or.inr (by simp [h])
      · exact Or.inr (by simp [h])

theorem FindStationsAlongRoute_stations (w : World F) (waypoints : List (F × F))
    (corridorKm : F) :
    (FindStationsAlongRoute w waypoints corridorKm).stations
      = ((successfulLookupsFrom w corridorKm 0 waypoints).foldl
          (fun acc stations => dedupLoop stations acc) emptyStations).allStations := by
  simp [FindStationsAlongRoute, waypointLoop_stations, emptyStations]

theorem successfulLookupsFrom_eq_nil (w : World F) (corridorKm : F)
    (waypoints : List (F × F)) :
    ∀ k : Nat,
      (∀ i wp, waypoints[i]? = some wp →
        ∃ err, FindNearbyStations w (k + i) wp.1 wp.2 corridorKm = .error err) →
      successfulLookupsFrom w corridorKm k waypoints = [] := by
  induction waypoints with
  | nil => intro k _; rfl
  | cons wp rest ih =>
    intro k hall
    obtain ⟨err, herr⟩ := hall 0 wp (by simp)
    rw [successfulLookupsFrom_cons_error w corridorKm k wp rest err herr]
    apply ih
    intro i m hm
    have := hall (i + 1) m (by simpa using hm)
    rwa [show k + 1 + i = k + (i + 1) by omega]

/-- Lookups numbered one higher in `w` than in `w'` give the same results. -/
theorem successfulLookupsFrom_shift (w w' : World F) (corridorKm : F)
    (waypoints : List (F × F)) :
    ∀ k : Nat, (∀ j, k ≤ j → w'.httpGet j = w.httpGet (j + 1)) →
      successfulLookupsFrom w' corridorKm k waypoints
        = successfulLookupsFrom w corridorKm (k + 1) waypoints := by
  induction waypoints with
  | nil => intro k _; rfl
  | cons wp rest ih =>
    intro k hshift
    have hhead : FindNearbyStations w' k wp.1 wp.2 corridorKm
        = FindNearbyStations w (k + 1) wp.1 wp.2 corridorKm := by
      simp only [FindNearbyStations, hshift k (Nat.le_refl k)]
    have htail := ih (k + 1) (fun j hj => hshift j (by omega))
    cases h : FindNearbyStations w (k + 1) wp.1 wp.2 corridorKm with
    | error err =>
      rw [successfulLookupsFrom_cons_error w' corridorKm k wp rest err (hhead.trans h),
        successfulLookupsFrom_cons_error w corridorKm (k + 1) wp rest err h, htail]
    | ok stations =>
      rw [successfulLookupsFrom_cons_ok w' corridorKm k wp rest stations (hhead.trans h),
        successfulLookupsFrom_cons_ok w corridorKm (k + 1) wp rest stations h, htail]

/-- Leaving out a waypoint whose lookup fails, and its call, changes no result. -/
theorem successfulLookupsFrom_skip (w : World F) (corridorKm : F) (waypoints : List (F × F)) :
    ∀ (k i : Nat) (wp : F × F) (err : Error),
      waypoints[i]? = some wp →
      FindNearbyStations w (k + i) wp.1 wp.2 corridorKm = .error err →
      successfulLookupsFrom w corridorKm k waypoints
        = successfulLookupsFrom (w.withHttpGet (skipCall (k + i) w.httpGet)) corridorKm k
            (waypoints.eraseIdx i) := by
  induction waypoints with
  | nil => intro k i wp err hi; simp at hi
  | cons a rest ih =>
    intro k i wp err hi herr
    cases i with
    | zero =>
      simp only [List.getElem?_cons_zero, Option.some.injEq] at hi
      subst hi
      rw [List.eraseIdx_cons_zero,
        successfulLookupsFrom_cons_error w corridorKm k a rest err (by simpa using herr)]
      symm
      apply successfulLookupsFrom_shift
      intro j hj
      have : ¬ j < k := by omega
      simp [World.withHttpGet, skipCall, this]
    | succ i =>
      simp only [List.getElem?_cons_succ] at hi
      have hrest := ih (k + 1) i wp err hi
        (by rwa [show k + 1 + i = k + (i + 1) by omega])
      rw [show k + 1 + i = k + (i + 1) by omega] at hrest
      have hhead : FindNearbyStations (w.withHttpGet (skipCall (k + (i + 1)) w.httpGet)) k
          a.1 a.2 corridorKm = FindNearbyStations w k a.1 a.2 corridorKm := by
        have : k < k + (i + 1) := by omega
        simp [FindNearbyStations, World.withHttpGet, skipCall, this]
      rw [List.eraseIdx_cons_succ]
      cases h : FindNearbyStations w k a.1 a.2 corridorKm with
      | error e =>
        rw [successfulLookupsFrom_cons_error w corridorKm k a rest e h,
          successfulLookupsFrom_cons_error _ corridorKm k a _ e (hhead.trans h), hrest]
      | ok stations =>
        rw [successfulLookupsFrom_cons_ok w corridorKm k a rest stations h,
          successfulLookupsFrom_cons_ok _ corridorKm k a _ stations (hhead.trans h), hrest]

/-! ## The collaborators each operation consults -/

theorem modeLoop_congr (w w' : World F) (start end_ : Location F)
    (pattern : Option (TrafficPattern F)) (hd : w.directions = w'.directions)
    (modes : List TransportMode) :
    ∀ (k : Nat) (st : LoopState F),
      modeLoop w start end_ pattern k modes st = modeLoop w' start end_ pattern k modes st := by
  induction modes with
  | nil => intro k st; rfl
  | cons mode rest ih =>
    intro k st
    simp only [modeLoop, hd]
    cases GetRoute (w'.directions k) start end_ mode with
    | error err => exact ih _ _
    | ok segment => exact ih _ _

theorem FindNearbyStations_congr (w w' : World F) (hh : w.httpGet = w'.httpGet)
    (k : Nat) (lat lng radiusKm : F) :
    FindNearbyStations w k lat lng radiusKm = FindNearbyStations w' k lat lng radiusKm := by
  simp only [FindNearbyStations, hh]

theorem waypointLoop_congr (w w' : World F) (corridorKm : F) (hh : w.httpGet = w'.httpGet)
    (waypoints : List (F × F)) :
    ∀ (k : Nat) (st : StationState F) (trace : List (Event F)),
      waypointLoop w corridorKm k waypoints st trace
        = waypointLoop w' corridorKm k waypoints st trace := by
  induction waypoints with
  | nil => intro k st trace; rfl
  | cons wp rest ih =>
    intro k st trace
    simp only [waypointLoop, FindNearbyStations_congr w w' hh]
    cases FindNearbyStations w' k wp.1 wp.2 corridorKm with
    | error err => exact ih _ _ _
    | ok stations => exact ih _ _ _

theorem FindStationsAlongRoute_congr (w w' : World F) (hh : w.httpGet = w'.httpGet)
    (waypoints : List (F × F)) (corridorKm : F) :
    FindStationsAlongRoute w waypoints corridorKm
      = FindStationsAlongRoute w' waypoints corridorKm := by
  simp only [FindStationsAlongRoute, waypointLoop_congr w w' corridorKm hh]

/-- The method `CalculateRoute` consults the clock, the traffic lookup, the Directions API,
the route store and the HTTP client; two worlds that agree on these give the
same run. -/
theorem CalculateRoute_congr (w w' : World F) (start end_ : Location F)
    (prefs : RoutePreferences F) (userID : String)
    (hn : w.now = w'.now) (hf : w.findOne = w'.findOne) (hd : w.directions = w'.directions)
    (hc : w.create = w'.create) (hh : w.httpGet = w'.httpGet) :
    CalculateRoute w start end_ prefs userID = CalculateRoute w' start end_ prefs userID := by
  simp only [CalculateRoute, finishRoute, saveRoute, updateTrafficPattern, SaveTrafficPattern,
    GetTrafficPattern, hn, hf, hc, FindStationsAlongRoute_congr w w' hh,
    modeLoop_congr w w' start end_ _ hd]

/-! ## Lemmas on the emission estimate -/

theorem emissionsPerKm_eq_factor (mode : TransportMode) :
    (emissionsPerKm mode : F) = Float64.ofInt (emissionFactor mode) := by
  unfold emissionsPerKm emissionFactor
  split_ifs <;> simp_all [Car, Bicycle, Walking, PublicTransit]

theorem emissionFactor_nonneg (mode : TransportMode) : 0 ≤ emissionFactor mode := by
  unfold emissionFactor
  split_ifs <;> decide

theorem Frac.norm_num_nonneg (n : Int) (d : Nat) (h : 0 ≤ n) : 0 ≤ (Frac.norm n d).num := by
  unfold Frac.norm
  exact Int.ediv_nonneg h (Int.natCast_nonneg _)

theorem Frac.le_zero_iff (x : Frac) :
    Float64.le (Float64.ofInt 0 : Frac) x = true ↔ 0 ≤ x.num := by
  show Frac.le (Frac.ofInt 0) x = true ↔ _
  simp [Frac.le, Frac.ofInt]

/-! ## The upsert in the trace of a successful call -/

/-- In the trace of a successful call the only `UpdateOne` is the one of
`updateTrafficPattern`. -/
theorem successTrace_filter_updateOne (w : World F) (start end_ : Location F)
    (prefs : RoutePreferences F) (pattern : Option (TrafficPattern F))
    (saved : SavedRoute F) (duration : Int) :
    ((finalState w start end_ prefs pattern).trace
        ++ [Event.create saved]
        ++ [updateTrafficPattern w start end_ duration]
        ++ (FindStationsAlongRoute w (routeWaypoints start end_) (Float64.ofInt 2)).trace).filter
      Event.isUpdateOne
      = [updateTrafficPattern w start end_ duration] := by
  have h1 : (finalState w start end_ prefs pattern).trace.filter Event.isUpdateOne = [] := by
    rw [List.filter_eq_nil_iff]
    intro ev hev
    simp only [finalState_trace, List.mem_cons, List.mem_map] at hev
    rcases hev with rfl | ⟨_, _, rfl⟩ <;> simp [lookupEvent, Event.isUpdateOne]
  have h2 : (FindStationsAlongRoute w (routeWaypoints start end_)
      (Float64.ofInt 2)).trace.filter Event.isUpdateOne = [] := by
    rw [List.filter_eq_nil_iff]
    intro ev hev
    simp only [FindStationsAlongRoute_trace, List.mem_map] at hev
    obtain ⟨_, _, rfl⟩ := hev
    simp [Event.isUpdateOne]
  simp only [List.filter_append, h1, h2, List.nil_append, List.append_nil]
  simp [Event.isUpdateOne, updateTrafficPattern, SaveTrafficPattern]

/-! ## Lemmas on the traffic store -/

section Store

variable [DecidableEq F]

theorem insertedDocument_satisfies (key : TrafficFilter F) (update : TrafficUpdate F) :
    (insertedDocument key update).satisfies key = true := by
  simp [TrafficDocument.satisfies, insertedDocument]

theorem applyUpdate_satisfies (key : TrafficFilter F) (update : TrafficUpdate F)
    (doc : TrafficDocument F) (h : doc.satisfies key = true) :
    (applyUpdate update doc).satisfies key = true := by
  simpa [TrafficDocument.satisfies, applyUpdate] using h

theorem storeAfterSave_nil (key : TrafficFilter F) (now : Time) (d : F) :
    storeAfterSave [] (observationFor key d now) now
      = [insertedDocument key { inc_sample_count := 1, inc_duration := d, set_timestamp := now }] :=
  rfl

theorem storeAfterSave_cons (key : TrafficFilter F) (now : Time) (d : F)
    (doc : TrafficDocument F) (rest : List (TrafficDocument F))
    (h : doc.satisfies key = true) :
    storeAfterSave (doc :: rest) (observationFor key d now) now
      = applyUpdate { inc_sample_count := 1, inc_duration := d, set_timestamp := now } doc
        :: rest := by
  have hk : (saveTrafficPatternCall (observationFor key d now) now).1 = key := rfl
  simp [storeAfterSave, updateOneUpsert, hk, h, saveTrafficPatternCall, observationFor]

/-- Saves for the key of the first document only touch that document: each adds
one to its sample count and the observed duration to its duration. -/
theorem storeAfterSaves_cons (key : TrafficFilter F) (now : Time) (durations : List F) :
    ∀ (doc : TrafficDocument F) (rest : List (TrafficDocument F)),
      doc.satisfies key = true →
      ∃ doc2, storeAfterSaves key now durations (doc :: rest) = doc2 :: rest ∧
        doc2.satisfies key = true ∧
        doc2.sample_count = doc.sample_count + durations.length ∧
        doc2.duration = durations.foldl Float64.add doc.duration := by
  induction durations with
  | nil => intro doc rest h; exact ⟨doc, rfl, h, by simp, rfl⟩
  | cons d ds ih =>
    intro doc rest h
    obtain ⟨doc2, h1, h2, h3, h4⟩ :=
      ih (applyUpdate { inc_sample_count := 1, inc_duration := d, set_timestamp := now } doc)
        rest (applyUpdate_satisfies key _ doc h)
    refine ⟨doc2, ?_, h2, ?_, ?_⟩
    · simp only [storeAfterSaves, List.foldl_cons]
      rw [storeAfterSave_cons key now d doc rest h]
      exact h1
    · rw [h3]
      simp only [applyUpdate, List.length_cons, Nat.cast_add, Nat.cast_one]
      omega
    · rw [h4]
      rfl

theorem findOneDecode_cons (key : TrafficFilter F) (doc : TrafficDocument F)
    (rest : List (TrafficDocument F)) (h : doc.satisfies key = true) :
    findOneDecode key (doc :: rest) = .ok (decodePattern doc) := by
  simp [findOneDecode, h]

/-- What the code stores and reads back: after `n ≥ 1` saves of the observed
durations `d :: ds` for one key into an empty collection, `GetTrafficPattern`
returns a pattern whose sample count is `n` and whose `Duration` is the sum of
the durations (not divided by `n`). -/
theorem GetTrafficPattern_after_saves (w : World F) (key : TrafficFilter F) (now : Time)
    (d : F) (ds : List F) :
    ∃ p, GetTrafficPattern (w.withStore (storeAfterSaves key now (d :: ds) []))
        key.start_lat key.start_lng key.end_lat key.end_lng key.day_of_week key.hour_of_day
        = .ok (some p) ∧
      p.SampleCount = (d :: ds).length ∧
      p.Duration = ds.foldl Float64.add d := by
  obtain ⟨doc2, h1, h2, h3, h4⟩ :=
    storeAfterSaves_cons key now ds
      (insertedDocument key { inc_sample_count := 1, inc_duration := d, set_timestamp := now })
      [] (insertedDocument_satisfies key _)
  have hstore : storeAfterSaves key now (d :: ds) [] = [doc2] := by
    simp only [storeAfterSaves, List.foldl_cons]
    rw [storeAfterSave_nil]
    exact h1
  have hk : getTrafficPatternFilter key.start_lat key.start_lng key.end_lat key.end_lng
      key.day_of_week key.hour_of_day = key := rfl
  refine ⟨decodePattern doc2, ?_, ?_, ?_⟩
  · simp only [GetTrafficPattern, World.withStore, hk, hstore, findOneDecode_cons key doc2 [] h2]
  · show doc2.sample_count = _
    rw [h3]
    simp only [insertedDocument, List.length_cons, Nat.cast_add, Nat.cast_one]
    omega
  · show doc2.duration = _
    rw [h4]
    rfl

end Store

end Lemmas

/-! ## Theorems -/

section Theorems

variable {F : Type} [Float64 F]

/-- C1: whenever `CalculateRoute` succeeds, the totals of the returned route are
the sums over the returned segments, in order, of `Distance`, `Duration` and
`CO2Emission`, each taken in the arithmetic of its Go type: the `float64` sums
run from left to right from zero, the `time.Duration` sum is the `int64` sum
(and is the exact integer sum whenever that fits in `int64`).  The durations
summed are the ones stored in the segments, after any historical override. -/
theorem CalculateRoute_totals_are_sums (w : World F) (start end_ : Location F)
    (prefs : RoutePreferences F) (userID : String) (r : RouteWithCharging F)
    (h : (CalculateRoute w start end_ prefs userID).result = .ok r) :
    r.Route.TotalDistance = sumFloat64 (r.Route.Segments.map (fun s => s.Distance)) ∧
    r.Route.TotalEmission = sumFloat64 (r.Route.Segments.map (fun s => s.CO2Emission)) ∧
    r.Route.TotalDuration = wrapInt64 ((r.Route.Segments.map (fun s => s.Duration)).sum) ∧
    (-(2 ^ 63) ≤ (r.Route.Segments.map (fun s => s.Duration)).sum →
      (r.Route.Segments.map (fun s => s.Duration)).sum < 2 ^ 63 →
      r.Route.TotalDuration = (r.Route.Segments.map (fun s => s.Duration)).sum) := by
  obtain ⟨_, pattern, first, rest, _, _, _, hr, _⟩ :=
    CalculateRoute_ok_inv w start end_ prefs userID r h
  obtain ⟨hd, he, ht⟩ := finalState_totalled w start end_ prefs pattern
  rw [hr]
  refine ⟨hd, he, ht, ?_⟩
  intro hlo hhi
  exact ht.trans (wrapInt64_of_inRange _ hlo hhi)

theorem CalculateRoute_totals_are_sums_witness :
    (CalculateRoute scenarioWorld berlin munich scenarioPrefs "u1").result = .ok scenarioResult ∧
    scenarioResult.Route.TotalDistance
      = sumFloat64 (scenarioResult.Route.Segments.map (fun s => s.Distance)) ∧
    scenarioResult.Route.TotalEmission
      = sumFloat64 (scenarioResult.Route.Segments.map (fun s => s.CO2Emission)) ∧
    scenarioResult.Route.TotalDuration
      = (scenarioResult.Route.Segments.map (fun s => s.Duration)).sum :=
  have h := CalculateRoute_totals_are_sums scenarioWorld berlin munich scenarioPrefs "u1"
    scenarioResult (by decide)
  ⟨by decide, h.1, h.2.1, h.2.2.2 (by decide) (by decide)⟩

/-- C2: with valid locations and a traffic lookup that does not error, if no
Directions call succeeds (in particular when `PreferredModes` is empty) then
`CalculateRoute` fails with the no-route error and neither `SaveRoute` nor the
traffic-pattern upsert is called.  Moreover no call of `CalculateRoute` ends in
an index-out-of-range panic: `Segments[0]` is in range wherever it is read. -/
theorem CalculateRoute_no_route (w : World F) (start end_ : Location F)
    (prefs : RoutePreferences F) (userID : String) :
    (validateLocations start end_ = true →
      (∃ pattern, lookupPattern w start end_ = .ok pattern) →
      (∀ k mode, prefs.PreferredModes[k]? = some mode →
        ∃ err, GetRoute (w.directions k) start end_ mode = .error err) →
      (CalculateRoute w start end_ prefs userID).result
          = .error (Error.new "no valid routes found for any preferred mode") ∧
        ∀ ev ∈ (CalculateRoute w start end_ prefs userID).trace,
          ev.isCreate = false ∧ ev.isUpdateOne = false) ∧
    (validateLocations start end_ = true →
      (∃ pattern, lookupPattern w start end_ = .ok pattern) →
      prefs.PreferredModes = [] →
      (CalculateRoute w start end_ prefs userID).result
          = .error (Error.new "no valid routes found for any preferred mode") ∧
        ∀ ev ∈ (CalculateRoute w start end_ prefs userID).trace,
          ev.isCreate = false ∧ ev.isUpdateOne = false) ∧
    (CalculateRoute w start end_ prefs userID).result ≠ .panic := by
  have key : validateLocations start end_ = true →
      (∃ pattern, lookupPattern w start end_ = .ok pattern) →
      (∀ k mode, prefs.PreferredModes[k]? = some mode →
        ∃ err, GetRoute (w.directions k) start end_ mode = .error err) →
      (CalculateRoute w start end_ prefs userID).result
          = .error (Error.new "no valid routes found for any preferred mode") ∧
        ∀ ev ∈ (CalculateRoute w start end_ prefs userID).trace,
          ev.isCreate = false ∧ ev.isUpdateOne = false := by
    rintro hv ⟨pattern, hl⟩ hall
    have hseg : (finalState w start end_ prefs pattern).segments = [] := by
      rw [finalState_segments, successfulSegments,
        successfulSegmentsFrom_eq_nil w start end_ _ 0 (by simpa using hall)]
      rfl
    rw [CalculateRoute_lookup_ok w start end_ prefs userID pattern hv hl,
      finishRoute_nil w start end_ userID _ hseg]
    refine ⟨rfl, ?_⟩
    intro ev hev
    simp only [finalState_trace, List.mem_cons, List.mem_map] at hev
    rcases hev with rfl | ⟨mode, _, rfl⟩
    · exact ⟨rfl, rfl⟩
    · exact ⟨rfl, rfl⟩
  refine ⟨key, ?_, ?_⟩
  · intro hv hl hnil
    apply key hv hl
    intro k mode hk
    simp [hnil] at hk
  · rcases CalculateRoute_cases w start end_ prefs userID with
      ⟨_, h⟩ | ⟨_, _, _, h⟩ | ⟨_, _, _, _, h⟩ | ⟨_, _, _, _, _, _, _, _, h⟩ |
      ⟨_, _, _, _, _, _, _, h⟩ <;>
    · rw [h]
      intro hp
      cases hp

theorem CalculateRoute_no_route_witness :
    ((CalculateRoute allFailWorld berlin munich scenarioPrefs "u1").result
        = .error (Error.new "no valid routes found for any preferred mode") ∧
      ∀ ev ∈ (CalculateRoute allFailWorld berlin munich scenarioPrefs "u1").trace,
        ev.isCreate = false ∧ ev.isUpdateOne = false) ∧
    ((CalculateRoute scenarioWorld berlin munich emptyPrefs "u1").result
        = .error (Error.new "no valid routes found for any preferred mode") ∧
      ∀ ev ∈ (CalculateRoute scenarioWorld berlin munich emptyPrefs "u1").trace,
        ev.isCreate = false ∧ ev.isUpdateOne = false) :=
  ⟨(CalculateRoute_no_route allFailWorld berlin munich scenarioPrefs "u1").1
      (by decide) ⟨none, rfl⟩ (fun _ _ _ => ⟨_, rfl⟩),
   (CalculateRoute_no_route scenarioWorld berlin munich emptyPrefs "u1").2.1
      (by decide) ⟨none, rfl⟩ rfl⟩

/-- C3, as amended: whenever `CalculateRoute` succeeds, the returned segments are,
position by position, the provider results of the successful positions of the
preference list, in list order and one per success, each with its `Duration`
replaced by the historical one when the lookup found a pattern (and left
untouched otherwise); the `TransportMode` handed to `SaveRoute` is the mode of
the first success. -/
theorem CalculateRoute_segments_in_order (w : World F) (start end_ : Location F)
    (prefs : RoutePreferences F) (userID : String) (r : RouteWithCharging F)
    (h : (CalculateRoute w start end_ prefs userID).result = .ok r) :
    ∃ pattern first rest,
      lookupPattern w start end_ = .ok pattern ∧
      successfulSegments w start end_ prefs.PreferredModes = first :: rest ∧
      r.Route.Segments
        = (successfulSegments w start end_ prefs.PreferredModes).map (adjustDuration pattern) ∧
      (pattern = none →
        r.Route.Segments = successfulSegments w start end_ prefs.PreferredModes) ∧
      (∃ saved, Event.create saved ∈ (CalculateRoute w start end_ prefs userID).trace) ∧
      (∀ saved, Event.create saved ∈ (CalculateRoute w start end_ prefs userID).trace →
        saved.TransportMode = first.Mode) := by
  rcases CalculateRoute_cases w start end_ prefs userID with
    ⟨_, hrun⟩ | ⟨_, _, _, hrun⟩ | ⟨_, _, _, _, hrun⟩ | ⟨_, _, _, _, _, _, _, _, hrun⟩ |
    ⟨_, pattern, first, rest, hl, hseg, _, hrun⟩
  · rw [hrun] at h; cases h
  · rw [hrun] at h; cases h
  · rw [hrun] at h; cases h
  · rw [hrun] at h; cases h
  · rw [hrun] at h
    injection h with h
    subst h
    rw [finalState_segments] at hseg
    cases hs : successfulSegments w start end_ prefs.PreferredModes with
    | nil => rw [hs] at hseg; cases hseg
    | cons first0 rest0 =>
      rw [hs] at hseg
      simp only [List.map_cons, List.cons.injEq] at hseg
      refine ⟨pattern, first0, rest0, hl, rfl, ?_, ?_, ?_, ?_⟩
      · show (finalState w start end_ prefs pattern).segments = _
        rw [finalState_segments, hs]
      · intro hnone
        show (finalState w start end_ prefs pattern).segments = _
        rw [finalState_segments, hs, hnone]
        have hid : adjustDuration (none : Option (TrafficPattern F)) = id :=
          funext adjustDuration_none
        rw [hid, List.map_id]
      · exact ⟨savedRecord w start end_ prefs userID pattern first, by rw [hrun]; simp⟩
      · intro saved hmem
        rw [hrun] at hmem
        rcases successTrace_mem w start end_ prefs pattern _ _ _ hmem with
          hev | ⟨_, _, hev⟩ | hev | hev | ⟨_, _, hev⟩
        · cases hev
        · cases hev
        · injection hev with hev
          subst hev
          show first.Mode = first0.Mode
          rw [← hseg.1, adjustDuration_Mode]
        · cases hev
        · cases hev

theorem CalculateRoute_segments_in_order_witness :
    (CalculateRoute scenarioWorld berlin munich scenarioPrefs "u1").result = .ok scenarioResult ∧
    scenarioResult.Route.Segments = [scenarioSegment] ∧
    scenarioSegment.Mode = Bicycle ∧
    scenarioResult.Route.TotalEmission = Float64.ofInt 0 ∧
    (∃ saved, Event.create saved
        ∈ (CalculateRoute scenarioWorld berlin munich scenarioPrefs "u1").trace) ∧
    (∀ saved, Event.create saved
        ∈ (CalculateRoute scenarioWorld berlin munich scenarioPrefs "u1").trace →
      saved.TransportMode = "bicycle") := by
  obtain ⟨pattern, first, rest, _, hs, _, _, hex, hall⟩ :=
    CalculateRoute_segments_in_order scenarioWorld berlin munich scenarioPrefs "u1"
      scenarioResult (by decide)
  have hfirst : successfulSegments scenarioWorld berlin munich scenarioPrefs.PreferredModes
      = [scenarioSegment] := by decide
  rw [hfirst] at hs
  injection hs with hfst _
  subst hfst
  exact ⟨by decide, rfl, rfl, rfl, hex, hall⟩

/-- C3, as stated, fails when the lookup finds a pattern: the provider answers
the bicycle request with 18000 s, the stored pattern holds 600 s, and the
returned segment carries 600 s, so it is not the provider result. -/
theorem CalculateRoute_segments_not_provider_results :
    (CalculateRoute (patternWorld ⟨600, 1⟩) berlin munich bicyclePrefs "u1").result
      = .ok (overriddenResult 600) ∧
    successfulSegments (patternWorld ⟨600, 1⟩) berlin munich bicyclePrefs.PreferredModes
      = [scenarioSegment] ∧
    (overriddenResult 600).Route.Segments
      ≠ successfulSegments (patternWorld ⟨600, 1⟩) berlin munich bicyclePrefs.PreferredModes := by
  decide

/-- C4: the code at a failing input.  The traffic store holds an average of
1800.5 s for the query key; the returned segment lasts 1800 s, which is not
the stored value: `time.Duration(pattern.Duration)` drops the fraction before
the multiplication by `time.Second`. -/
theorem CalculateRoute_override_truncates :
    (CalculateRoute (patternWorld ⟨3601, 2⟩) berlin munich bicyclePrefs "u1").result
      = .ok (overriddenResult 1800) ∧
    (overriddenResult 1800).Route.Segments.map (fun s => s.Duration) = [1800 * Second] ∧
    (Seconds (1800 * Second) : Frac) = ⟨1800, 1⟩ ∧
    (Seconds (1800 * Second) : Frac) ≠ (storedPattern ⟨3601, 2⟩).Duration := by
  decide

/-- What the override does for every stored value: each returned segment
carries the duration `int64(pattern.Duration)` seconds (in `int64` arithmetic),
and its `Distance` and `CO2Emission` are the provider's. -/
theorem CalculateRoute_override (w : World F) (start end_ : Location F)
    (prefs : RoutePreferences F) (userID : String) (r : RouteWithCharging F)
    (p : TrafficPattern F)
    (hl : lookupPattern w start end_ = .ok (some p))
    (h : (CalculateRoute w start end_ prefs userID).result = .ok r) :
    (∀ s ∈ r.Route.Segments, s.Duration = wrapInt64 (Float64.toInt64 p.Duration * Second)) ∧
    r.Route.Segments.map (fun s => s.Distance)
      = (successfulSegments w start end_ prefs.PreferredModes).map (fun s => s.Distance) ∧
    r.Route.Segments.map (fun s => s.CO2Emission)
      = (successfulSegments w start end_ prefs.PreferredModes).map (fun s => s.CO2Emission) := by
  obtain ⟨_, pattern, first, rest, hl2, _, _, hr, _⟩ :=
    CalculateRoute_ok_inv w start end_ prefs userID r h
  rw [hl] at hl2
  injection hl2 with hp
  subst hp
  rw [hr]
  show (∀ s ∈ (finalState w start end_ prefs (some p)).segments, _) ∧
    (finalState w start end_ prefs (some p)).segments.map _ = _ ∧
    (finalState w start end_ prefs (some p)).segments.map _ = _
  rw [finalState_segments]
  refine ⟨?_, ?_, ?_⟩
  · intro s hs
    rw [List.mem_map] at hs
    obtain ⟨s0, _, rfl⟩ := hs
    rfl
  · rw [List.map_map]
    rfl
  · rw [List.map_map]
    rfl

/-- C5: `validateLocations` holds exactly when both locations are valid, that
is when all the bounds hold; `CalculateRoute` fails with the validation error
exactly when a location is not valid, and then it has called no collaborator. -/
theorem CalculateRoute_validation (w : World F) (start end_ : Location F)
    (prefs : RoutePreferences F) (userID : String) :
    (validateLocations start end_ = true ↔ start.Valid ∧ end_.Valid) ∧
    ((CalculateRoute w start end_ prefs userID).result
        = .error (Error.new "invalid locations provided")
      ↔ ¬(start.Valid ∧ end_.Valid)) ∧
    (¬(start.Valid ∧ end_.Valid) → (CalculateRoute w start end_ prefs userID).trace = []) := by
  have hiff : validateLocations start end_ = true ↔ start.Valid ∧ end_.Valid := by
    simp only [validateLocations, isValidLatitude, isValidLongitude, Float64.ge,
      Location.Valid, Bool.and_eq_true]
    tauto
  refine ⟨hiff, ?_, ?_⟩
  · rw [← hiff]
    rcases CalculateRoute_cases w start end_ prefs userID with
      ⟨hv, hrun⟩ | ⟨hv, _, hl, hrun⟩ | ⟨hv, _, _, _, hrun⟩ | ⟨hv, _, _, _, _, _, _, _, hrun⟩ |
      ⟨hv, _, _, _, _, _, _, hrun⟩
    · rw [hrun, hv]; simp
    · obtain ⟨e, he, _, _⟩ := lookupPattern_error w start end_ _ hl
      rw [hrun, hv, he]; simp
    · rw [hrun, hv]; simp
    · rw [hrun, hv]; simp
    · rw [hrun, hv]; simp
  · intro hnot
    rw [← hiff] at hnot
    have hv : validateLocations start end_ = false := by simpa using hnot
    rw [CalculateRoute_invalid w start end_ prefs userID hv]

theorem CalculateRoute_validation_witness :
    ¬(beyondThePole.Valid ∧ munich.Valid) ∧
    (CalculateRoute scenarioWorld beyondThePole munich scenarioPrefs "u1").result
      = .error (Error.new "invalid locations provided") ∧
    (CalculateRoute scenarioWorld beyondThePole munich scenarioPrefs "u1").trace = [] :=
  ⟨by decide,
   (CalculateRoute_validation scenarioWorld beyondThePole munich scenarioPrefs "u1").2.1.2
     (by decide),
   (CalculateRoute_validation scenarioWorld beyondThePole munich scenarioPrefs "u1").2.2
     (by decide)⟩

/-- C6: with valid locations, a traffic lookup that does not error and at least
one successful mode, a record is handed to `SaveRoute`; and whenever the save of
the record handed over fails, `CalculateRoute` fails with that error, returns no
`RouteWithCharging`, and calls neither the traffic-pattern upsert nor the
charging-station search. -/
theorem CalculateRoute_save_failure (w : World F) (start end_ : Location F)
    (prefs : RoutePreferences F) (userID : String) :
    (validateLocations start end_ = true →
      (∃ pattern, lookupPattern w start end_ = .ok pattern) →
      (∃ k mode segment, prefs.PreferredModes[k]? = some mode ∧
        GetRoute (w.directions k) start end_ mode = .ok segment) →
      ∃ saved, Event.create saved ∈ (CalculateRoute w start end_ prefs userID).trace) ∧
    (∀ saved err,
      Event.create saved ∈ (CalculateRoute w start end_ prefs userID).trace →
      w.create saved = some err →
      (CalculateRoute w start end_ prefs userID).result = .error (Error.external err) ∧
      ∀ ev ∈ (CalculateRoute w start end_ prefs userID).trace,
        ev.isUpdateOne = false ∧ ev.isHttpGet = false) := by
  constructor
  · rintro hv ⟨pattern, hl⟩ ⟨k, mode, segment, hk, hok⟩
    have hne := successfulSegments_ne_nil w start end_ _ k mode segment hk hok
    rcases CalculateRoute_cases w start end_ prefs userID with
      ⟨hv2, _⟩ | ⟨_, _, hl2, _⟩ | ⟨_, p, hl2, hseg, _⟩ | ⟨_, p, first, _, _, _, _, _, hrun⟩ |
      ⟨_, p, first, _, _, _, _, hrun⟩
    · rw [hv] at hv2; cases hv2
    · rw [hl] at hl2; cases hl2
    · rw [finalState_segments] at hseg
      exact absurd (List.map_eq_nil_iff.mp hseg) hne
    · exact ⟨savedRecord w start end_ prefs userID p first, by rw [hrun]; simp⟩
    · exact ⟨savedRecord w start end_ prefs userID p first, by rw [hrun]; simp⟩
  · intro saved err hmem hfail
    rcases CalculateRoute_cases w start end_ prefs userID with
      ⟨_, hrun⟩ | ⟨_, _, _, hrun⟩ | ⟨_, pattern, _, _, hrun⟩ |
      ⟨_, pattern, first, _, err2, _, _, hc, hrun⟩ |
      ⟨_, pattern, first, _, _, _, hc, hrun⟩
    · rw [hrun] at hmem; simp at hmem
    · rw [hrun] at hmem; simp [lookupEvent] at hmem
    · rw [hrun] at hmem
      simp [finalState_trace, lookupEvent] at hmem
    · rw [hrun] at hmem ⊢
      simp only [finalState_trace, lookupEvent, List.mem_append, List.mem_cons, List.mem_map,
        List.mem_singleton, List.not_mem_nil, or_false] at hmem
      rcases hmem with (hmem | ⟨_, _, hmem⟩) | hmem
      · cases hmem
      · cases hmem
      · injection hmem with hmem
        subst hmem
        rw [hc] at hfail
        injection hfail with hfail
        subst hfail
        refine ⟨rfl, ?_⟩
        intro ev hev
        simp only [finalState_trace, lookupEvent, List.mem_append, List.mem_cons, List.mem_map,
          List.mem_singleton, List.not_mem_nil, or_false] at hev
        rcases hev with (rfl | ⟨_, _, rfl⟩) | rfl
        · exact ⟨rfl, rfl⟩
        · exact ⟨rfl, rfl⟩
        · exact ⟨rfl, rfl⟩
    · rw [hrun] at hmem
      rcases successTrace_mem w start end_ prefs pattern _ _ _ hmem with
        hev | ⟨_, _, hev⟩ | hev | hev | ⟨_, _, hev⟩
      · cases hev
      · cases hev
      · injection hev with hev
        subst hev
        rw [hc] at hfail
        cases hfail
      · cases hev
      · cases hev

theorem CalculateRoute_save_failure_witness :
    (∃ saved, Event.create saved
        ∈ (CalculateRoute saveFailsWorld berlin munich scenarioPrefs "u1").trace) ∧
    (CalculateRoute saveFailsWorld berlin munich scenarioPrefs "u1").result
      = .error (Error.external ⟨11⟩) ∧
    ∀ ev ∈ (CalculateRoute saveFailsWorld berlin munich scenarioPrefs "u1").trace,
      ev.isUpdateOne = false ∧ ev.isHttpGet = false :=
  ⟨(CalculateRoute_save_failure saveFailsWorld berlin munich scenarioPrefs "u1").1
      (by decide) ⟨none, rfl⟩ ⟨1, Bicycle, scenarioSegment, rfl, rfl⟩,
   (CalculateRoute_save_failure saveFailsWorld berlin munich scenarioPrefs "u1").2
      scenarioSaved ⟨11⟩ (by decide) rfl⟩

/-- C7: the outcome of `CalculateRoute` does not depend on the result of the
traffic-pattern upsert.  Replacing the behaviour of the upsert by any other
(failing or not) changes neither the result nor the calls made; and whenever
the save of the record handed to `SaveRoute` succeeds, the call succeeds,
under every behaviour of the upsert, with the same route and charging
stations, after exactly one upsert call. -/
theorem CalculateRoute_ignores_upsert_result (w : World F) (start end_ : Location F)
    (prefs : RoutePreferences F) (userID : String)
    (u : TrafficFilter F → TrafficUpdate F → Option LibError) :
    CalculateRoute (w.withUpdateOne u) start end_ prefs userID
      = CalculateRoute w start end_ prefs userID ∧
    (∀ saved, Event.create saved ∈ (CalculateRoute w start end_ prefs userID).trace →
      w.create saved = none →
      ∃ r, (CalculateRoute w start end_ prefs userID).result = .ok r ∧
        (CalculateRoute (w.withUpdateOne u) start end_ prefs userID).result = .ok r ∧
        ((CalculateRoute w start end_ prefs userID).trace.filter Event.isUpdateOne).length = 1) := by
  have heq : CalculateRoute (w.withUpdateOne u) start end_ prefs userID
      = CalculateRoute w start end_ prefs userID :=
    CalculateRoute_congr _ _ start end_ prefs userID rfl rfl rfl rfl rfl
  refine ⟨heq, ?_⟩
  intro saved hmem hsave
  rw [heq]
  rcases CalculateRoute_cases w start end_ prefs userID with
    ⟨_, hrun⟩ | ⟨_, _, _, hrun⟩ | ⟨_, pattern, _, _, hrun⟩ |
    ⟨_, pattern, first, _, err2, _, _, hc, hrun⟩ |
    ⟨_, pattern, first, _, _, _, hc, hrun⟩
  · rw [hrun] at hmem; simp at hmem
  · rw [hrun] at hmem; simp [lookupEvent] at hmem
  · rw [hrun] at hmem
    simp [finalState_trace, lookupEvent] at hmem
  · rw [hrun] at hmem
    simp only [finalState_trace, lookupEvent, List.mem_append, List.mem_cons, List.mem_map,
      List.mem_singleton, List.not_mem_nil, or_false] at hmem
    rcases hmem with (hmem | ⟨_, _, hmem⟩) | hmem
    · cases hmem
    · cases hmem
    · injection hmem with hmem
      subst hmem
      rw [hc] at hsave
      cases hsave
  · rw [hrun]
    refine ⟨_, rfl, rfl, ?_⟩
    simp only [finalState_trace, FindStationsAlongRoute_trace, List.filter_append,
      List.length_append]
    have h1 : (List.filter Event.isUpdateOne
        (lookupEvent w start end_ :: prefs.PreferredModes.map
          (fun mode => Event.directions (directionsRequest start end_ mode)))) = [] := by
      rw [List.filter_eq_nil_iff]
      intro ev hev
      simp only [List.mem_cons, List.mem_map] at hev
      rcases hev with rfl | ⟨_, _, rfl⟩ <;> simp [lookupEvent, Event.isUpdateOne]
    have h2 : (List.filter Event.isUpdateOne
        ((routeWaypoints start end_).map
          (fun wp => (Event.httpGet (nearbyStationsURL wp.1 wp.2 (Float64.ofInt 2)) :
            Event F)))) = [] := by
      rw [List.filter_eq_nil_iff]
      intro ev hev
      simp only [List.mem_map] at hev
      obtain ⟨_, _, rfl⟩ := hev
      simp [Event.isUpdateOne]
    rw [h1, h2]
    simp [Event.isUpdateOne, updateTrafficPattern, SaveTrafficPattern]

theorem CalculateRoute_ignores_upsert_result_witness :
    (SaveTrafficPattern (scenarioWorld.withUpdateOne (fun _ _ => some ⟨9⟩))
        (observedPattern berlin munich 18000000000000 noon) noon).2
      = some (Error.external ⟨9⟩) ∧
    ∃ r, (CalculateRoute scenarioWorld berlin munich scenarioPrefs "u1").result = .ok r ∧
      (CalculateRoute (scenarioWorld.withUpdateOne (fun _ _ => some ⟨9⟩)) berlin munich
        scenarioPrefs "u1").result = .ok r ∧
      ((CalculateRoute scenarioWorld berlin munich scenarioPrefs "u1").trace.filter
        Event.isUpdateOne).length = 1 :=
  ⟨rfl,
   (CalculateRoute_ignores_upsert_result scenarioWorld berlin munich scenarioPrefs "u1"
      (fun _ _ => some ⟨9⟩)).2 scenarioSaved (by decide) rfl⟩

/-- C8: a miss of the traffic store is not an error.  When `FindOne` reports
"no documents", `GetTrafficPattern` yields no pattern and no error, and
`CalculateRoute` (on valid locations) goes on: it calls the Directions API for
every preferred mode and every segment it returns is the provider result, with
the provider-reported duration.  Any other failure of the store makes
`CalculateRoute` fail with that error, the lookup being the only call made. -/
theorem CalculateRoute_lookup_miss_or_failure (w : World F) (start end_ : Location F)
    (prefs : RoutePreferences F) (userID : String) :
    (∀ (startLat startLng endLat endLng : F) (dayOfWeek hourOfDay : Int),
      w.findOne (getTrafficPatternFilter startLat startLng endLat endLng dayOfWeek hourOfDay)
        = .error ErrNoDocuments →
      GetTrafficPattern w startLat startLng endLat endLng dayOfWeek hourOfDay = .ok none) ∧
    (validateLocations start end_ = true →
      w.findOne (getTrafficPatternFilter start.Latitude start.Longitude end_.Latitude
        end_.Longitude (w.now 0).Weekday (w.now 0).Hour) = .error ErrNoDocuments →
      (∀ mode ∈ prefs.PreferredModes,
        Event.directions (directionsRequest start end_ mode)
          ∈ (CalculateRoute w start end_ prefs userID).trace) ∧
      (∀ r, (CalculateRoute w start end_ prefs userID).result = .ok r →
        r.Route.Segments = successfulSegments w start end_ prefs.PreferredModes) ∧
      (∀ e, (CalculateRoute w start end_ prefs userID).result = .error e →
        e = Error.new "no valid routes found for any preferred mode" ∨
        ∃ saved err, Event.create saved ∈ (CalculateRoute w start end_ prefs userID).trace ∧
          w.create saved = some err ∧ e = Error.external err)) ∧
    (∀ err, validateLocations start end_ = true →
      w.findOne (getTrafficPatternFilter start.Latitude start.Longitude end_.Latitude
        end_.Longitude (w.now 0).Weekday (w.now 0).Hour) = .error err →
      err ≠ ErrNoDocuments →
      (CalculateRoute w start end_ prefs userID).result = .error (Error.external err) ∧
      (CalculateRoute w start end_ prefs userID).trace
        = [Event.findOne (getTrafficPatternFilter start.Latitude start.Longitude end_.Latitude
            end_.Longitude (w.now 0).Weekday (w.now 0).Hour)]) := by
  refine ⟨?_, ?_, ?_⟩
  · intro startLat startLng endLat endLng dayOfWeek hourOfDay hmiss
    simp [GetTrafficPattern, hmiss]
  · intro hv hmiss
    have hl := lookupPattern_miss w start end_ hmiss
    rcases CalculateRoute_cases w start end_ prefs userID with
      ⟨hv2, _⟩ | ⟨_, _, hl2, _⟩ | ⟨_, pattern, hl2, _, hrun⟩ |
      ⟨_, pattern, first, _, err, hl2, _, hc, hrun⟩ |
      ⟨_, pattern, first, _, hl2, _, _, hrun⟩
    · rw [hv] at hv2; cases hv2
    · rw [hl] at hl2; cases hl2
    · rw [hrun]
      refine ⟨?_, ?_, ?_⟩
      · intro mode hmode
        simp only [finalState_trace, List.mem_cons, List.mem_map]
        exact Or.inr ⟨mode, hmode, rfl⟩
      · intro r hr; cases hr
      · intro e he
        injection he with he
        exact Or.inl he.symm
    · rw [hrun]
      refine ⟨?_, ?_, ?_⟩
      · intro mode hmode
        simp only [finalState_trace, List.mem_append, List.mem_cons, List.mem_map]
        exact Or.inl (Or.inr ⟨mode, hmode, rfl⟩)
      · intro r hr; cases hr
      · intro e he
        injection he with he
        exact Or.inr ⟨savedRecord w start end_ prefs userID pattern first, err, by simp, hc,
          he.symm⟩
    · rw [hl] at hl2
      injection hl2 with hp
      subst hp
      rw [hrun]
      refine ⟨?_, ?_, ?_⟩
      · intro mode hmode
        simp only [finalState_trace, List.mem_append, List.mem_cons, List.mem_map]
        exact Or.inl (Or.inl (Or.inl (Or.inr ⟨mode, hmode, rfl⟩)))
      · intro r hr
        injection hr with hr
        subst hr
        show (finalState w start end_ prefs none).segments = _
        rw [finalState_segments]
        have hid : adjustDuration (none : Option (TrafficPattern F)) = id :=
          funext adjustDuration_none
        rw [hid, List.map_id]
      · intro e he; cases he
  · intro err hv hfail hne
    have hl := lookupPattern_failure w start end_ err hfail hne
    rw [CalculateRoute_lookup_error w start end_ prefs userID _ hv hl]
    exact ⟨rfl, rfl⟩

theorem CalculateRoute_lookup_miss_or_failure_witness :
    GetTrafficPattern scenarioWorld berlin.Latitude berlin.Longitude munich.Latitude
      munich.Longitude 3 12 = .ok none ∧
    ((∀ mode ∈ scenarioPrefs.PreferredModes,
        Event.directions (directionsRequest berlin munich mode)
          ∈ (CalculateRoute scenarioWorld berlin munich scenarioPrefs "u1").trace) ∧
      (∀ r, (CalculateRoute scenarioWorld berlin munich scenarioPrefs "u1").result = .ok r →
        r.Route.Segments
          = successfulSegments scenarioWorld berlin munich scenarioPrefs.PreferredModes) ∧
      (∀ e, (CalculateRoute scenarioWorld berlin munich scenarioPrefs "u1").result = .error e →
        e = Error.new "no valid routes found for any preferred mode" ∨
        ∃ saved err,
          Event.create saved
            ∈ (CalculateRoute scenarioWorld berlin munich scenarioPrefs "u1").trace ∧
          scenarioWorld.create saved = some err ∧ e = Error.external err)) ∧
    (CalculateRoute scenarioWorld berlin munich scenarioPrefs "u1").result = .ok scenarioResult ∧
    (CalculateRoute lookupFailsWorld berlin munich scenarioPrefs "u1").result
      = .error (Error.external ⟨5⟩) ∧
    (CalculateRoute lookupFailsWorld berlin munich scenarioPrefs "u1").trace
      = [Event.findOne (getTrafficPatternFilter berlin.Latitude berlin.Longitude
          munich.Latitude munich.Longitude 3 12)] :=
  ⟨(CalculateRoute_lookup_miss_or_failure scenarioWorld berlin munich scenarioPrefs "u1").1
      berlin.Latitude berlin.Longitude munich.Latitude munich.Longitude 3 12 rfl,
   (CalculateRoute_lookup_miss_or_failure scenarioWorld berlin munich scenarioPrefs "u1").2.1
      (by decide) rfl,
   by decide,
   (CalculateRoute_lookup_miss_or_failure lookupFailsWorld berlin munich scenarioPrefs
      "u1").2.2 ⟨5⟩ (by decide) rfl (by decide)⟩

/-- C9: the stations `FindStationsAlongRoute` returns have pairwise distinct IDs;
their number is the number of distinct IDs in the results of the lookups that
succeeded; an ID is in the output exactly when it is in one of these results;
and every station returned was found by one of them. -/
theorem FindStationsAlongRoute_dedup (w : World F) (waypoints : List (F × F))
    (corridorKm : F) :
    ((FindStationsAlongRoute w waypoints corridorKm).stations.map (fun s => s.ID)).Nodup ∧
    (FindStationsAlongRoute w waypoints corridorKm).stations.length
      = ((successfulLookupsFrom w corridorKm 0 waypoints).flatten.map
          (fun s => s.ID)).toFinset.card ∧
    (∀ id, id ∈ (FindStationsAlongRoute w waypoints corridorKm).stations.map (fun s => s.ID)
      ↔ id ∈ (successfulLookupsFrom w corridorKm 0 waypoints).flatten.map (fun s => s.ID)) ∧
    (∀ s ∈ (FindStationsAlongRoute w waypoints corridorKm).stations,
      s ∈ (successfulLookupsFrom w corridorKm 0 waypoints).flatten) := by
  obtain ⟨hc, hids, hsub⟩ :=
    foldl_dedupLoop_spec (successfulLookupsFrom w corridorKm 0 waypoints) emptyStations
      emptyStations_consistent
  rw [FindStationsAlongRoute_stations]
  have hmem : ∀ id, id ∈ (((successfulLookupsFrom w corridorKm 0 waypoints).foldl
        (fun acc stations => dedupLoop stations acc) emptyStations).allStations.map
          (fun s => s.ID))
      ↔ id ∈ (successfulLookupsFrom w corridorKm 0 waypoints).flatten.map (fun s => s.ID) := by
    intro id
    rw [hids id]
    simp [emptyStations]
  refine ⟨hc.2, ?_, hmem, ?_⟩
  · have hlen := List.toFinset_card_of_nodup hc.2
    rw [List.length_map] at hlen
    rw [← hlen]
    congr 1
    exact List.toFinset.ext_iff.2 hmem
  · intro s hs
    rcases hsub s hs with h | h
    · simp [emptyStations] at h
    · exact h

/-- C10: `FindStationsAlongRoute` returns no error, whatever the waypoints and
the locator do.  A waypoint whose lookup fails is skipped: the result is the
one computed from the remaining waypoints alone (that waypoint and its call
left out).  When every lookup fails the result is empty.  And `CalculateRoute`
does not depend on the locator for its success or its route: if it succeeds
under one behaviour of the locator it succeeds under every other with the
same route, with no charging station when every lookup fails. -/
theorem FindStationsAlongRoute_never_fails (w : World F) (waypoints : List (F × F))
    (corridorKm : F) :
    (FindStationsAlongRoute w waypoints corridorKm).err = none ∧
    (∀ i wp err, waypoints[i]? = some wp →
      FindNearbyStations w i wp.1 wp.2 corridorKm = .error err →
      (FindStationsAlongRoute w waypoints corridorKm).stations
        = (FindStationsAlongRoute (w.withHttpGet (skipCall i w.httpGet))
            (waypoints.eraseIdx i) corridorKm).stations) ∧
    ((∀ i wp, waypoints[i]? = some wp →
        ∃ err, FindNearbyStations w i wp.1 wp.2 corridorKm = .error err) →
      (FindStationsAlongRoute w waypoints corridorKm).stations = []) ∧
    (∀ (start end_ : Location F) (prefs : RoutePreferences F) (userID : String)
      (r : RouteWithCharging F) (g : Nat → String → HttpOutcome F),
      (CalculateRoute w start end_ prefs userID).result = .ok r →
      ∃ r', (CalculateRoute (w.withHttpGet g) start end_ prefs userID).result = .ok r' ∧
        r'.Route = r.Route ∧
        ((∀ k lat lng radiusKm, ∃ err,
            FindNearbyStations (w.withHttpGet g) k lat lng radiusKm = .error err) →
          r'.ChargingStations = [])) := by
  refine ⟨rfl, ?_, ?_, ?_⟩
  · intro i wp err hi herr
    rw [FindStationsAlongRoute_stations, FindStationsAlongRoute_stations,
      successfulLookupsFrom_skip w corridorKm waypoints 0 i wp err hi (by simpa using herr)]
    simp
  · intro hall
    rw [FindStationsAlongRoute_stations,
      successfulLookupsFrom_eq_nil w corridorKm waypoints 0 (by simpa using hall)]
    rfl
  · intro start end_ prefs userID r g hok
    obtain ⟨hv, pattern, first, rest, hl, hseg, hc, hr, _⟩ :=
      CalculateRoute_ok_inv w start end_ prefs userID r hok
    have hfinal : finalState (w.withHttpGet g) start end_ prefs pattern
        = finalState w start end_ prefs pattern := by
      unfold finalState
      exact modeLoop_congr (w.withHttpGet g) w start end_ pattern rfl _ _ _
    have hl' : lookupPattern (w.withHttpGet g) start end_ = .ok pattern := hl
    have hseg' : (finalState (w.withHttpGet g) start end_ prefs pattern).segments
        = first :: rest := by rw [hfinal]; exact hseg
    have hc' : (w.withHttpGet g).create (savedRouteOf (assembleRoute
        (finalState (w.withHttpGet g) start end_ prefs pattern) start end_ userID
        ((w.withHttpGet g).now 1)) first) = none := by rw [hfinal]; exact hc
    rw [CalculateRoute_lookup_ok _ start end_ prefs userID pattern hv hl',
      finishRoute_save_ok _ start end_ userID _ first rest hseg' hc']
    refine ⟨_, rfl, ?_, ?_⟩
    · rw [hr, hfinal]
      rfl
    · intro hall
      show (FindStationsAlongRoute (w.withHttpGet g) (routeWaypoints start end_)
        (Float64.ofInt 2)).stations = []
      rw [FindStationsAlongRoute_stations,
        successfulLookupsFrom_eq_nil (w.withHttpGet g) (Float64.ofInt 2) _ 0
          (fun i wp _ => hall _ _ _ _)]
      rfl

theorem FindStationsAlongRoute_never_fails_witness :
    ((FindStationsAlongRoute chargingWorld (routeWaypoints berlin munich) ⟨2, 1⟩).stations
        = (FindStationsAlongRoute (chargingWorld.withHttpGet (skipCall 0 chargingWorld.httpGet))
            ((routeWaypoints berlin munich).eraseIdx 0) ⟨2, 1⟩).stations ∧
      (FindStationsAlongRoute chargingWorld (routeWaypoints berlin munich) ⟨2, 1⟩).stations
        = [station 7 "a", station 9 "c"]) ∧
    (FindStationsAlongRoute (scenarioWorld.withHttpGet httpDown) (routeWaypoints berlin munich)
        ⟨2, 1⟩).stations = [] ∧
    ∃ r', (CalculateRoute (scenarioWorld.withHttpGet httpDown) berlin munich scenarioPrefs
          "u1").result = .ok r' ∧
      r'.Route = scenarioResult.Route ∧ r'.ChargingStations = [] := by
  refine ⟨⟨?_, by decide⟩, ?_, ?_⟩
  · exact (FindStationsAlongRoute_never_fails chargingWorld (routeWaypoints berlin munich)
      ⟨2, 1⟩).2.1 0 (berlin.Latitude, berlin.Longitude)
      (Error.statusf "API request failed with status" 503) rfl rfl
  · exact (FindStationsAlongRoute_never_fails (scenarioWorld.withHttpGet httpDown)
      (routeWaypoints berlin munich) ⟨2, 1⟩).2.2.1 (fun _ _ _ => ⟨_, rfl⟩)
  · obtain ⟨r', h1, h2, h3⟩ :=
      (FindStationsAlongRoute_never_fails scenarioWorld [] ⟨2, 1⟩).2.2.2 berlin munich
        scenarioPrefs "u1" scenarioResult httpDown (by decide)
    exact ⟨r', h1, h2, h3 (fun _ _ _ _ => ⟨_, rfl⟩)⟩

/-- An illustration of C9: station 7 is found near both waypoints and listed
twice for the second one; it is returned once, with the stations 8 and 9. -/
theorem FindStationsAlongRoute_dedup_witness :
    ((FindStationsAlongRoute overlapWorld (routeWaypoints berlin munich) ⟨2, 1⟩).stations.map
        (fun s => s.ID)).Nodup ∧
    (FindStationsAlongRoute overlapWorld (routeWaypoints berlin munich) ⟨2, 1⟩).stations.length
      = 3 ∧
    (FindStationsAlongRoute overlapWorld (routeWaypoints berlin munich) ⟨2, 1⟩).stations.map
        (fun s => s.ID) = [7, 8, 9] ∧
    (successfulLookupsFrom overlapWorld ⟨2, 1⟩ 0 (routeWaypoints berlin munich)).flatten.map
        (fun s => s.ID) = [7, 8, 7, 7, 9] :=
  ⟨(FindStationsAlongRoute_dedup overlapWorld (routeWaypoints berlin munich) ⟨2, 1⟩).1,
   by decide, by decide, by decide⟩

/-- C11: `calculateEmissions` is a total function which, for every mode and
every distance in meters, returns `(distance / 1000) * factor(mode)` in
`float64` arithmetic, with the factor 120 for car, 60 for public transit and 0
for bicycle, walking and every other mode.  In exact arithmetic a car over
10000 m emits 1200 g, and the result is non-negative whenever the distance is. -/
theorem calculateEmissions_formula :
    (∀ (F : Type) [Float64 F] (mode : TransportMode) (distanceMeters : F),
      calculateEmissions mode distanceMeters
        = Float64.mul (Float64.div distanceMeters (Float64.ofInt 1000))
            (Float64.ofInt (emissionFactor mode))) ∧
    (emissionFactor Car = 120 ∧ emissionFactor PublicTransit = 60 ∧
      emissionFactor Bicycle = 0 ∧ emissionFactor Walking = 0 ∧
      ∀ mode, mode ≠ Car → mode ≠ PublicTransit → emissionFactor mode = 0) ∧
    calculateEmissions Car (Float64.ofInt 10000 : Frac) = Float64.ofInt 1200 ∧
    (∀ (mode : TransportMode) (distanceMeters : Frac),
      Float64.le (Float64.ofInt 0) distanceMeters = true →
      Float64.le (Float64.ofInt 0) (calculateEmissions mode distanceMeters) = true) := by
  refine ⟨?_, ⟨by decide, by decide, by decide, by decide, ?_⟩, by decide, ?_⟩
  · intro F _ mode distanceMeters
    simp only [calculateEmissions, emissionsPerKm_eq_factor]
  · intro mode hcar hpt
    simp [emissionFactor, hcar, hpt]
  · intro mode distanceMeters hd
    rw [Frac.le_zero_iff] at hd ⊢
    simp only [calculateEmissions, emissionsPerKm_eq_factor]
    show 0 ≤ (Frac.mul (Frac.div distanceMeters (Frac.ofInt 1000))
      (Frac.ofInt (emissionFactor mode))).num
    unfold Frac.mul
    apply Frac.norm_num_nonneg
    apply Int.mul_nonneg
    · unfold Frac.div
      apply Frac.norm_num_nonneg
      have hs : Int.sign (1000 : Int) = 1 := rfl
      simpa [Frac.ofInt, hs] using hd
    · exact emissionFactor_nonneg mode

theorem calculateEmissions_formula_witness :
    emissionFactor Car = 120 ∧
    emissionFactor "scooter" = 0 ∧
    calculateEmissions Car (⟨10000, 1⟩ : Frac) = ⟨1200, 1⟩ ∧
    Float64.le (Float64.ofInt 0) (calculateEmissions PublicTransit (⟨2500, 1⟩ : Frac)) = true ∧
    calculateEmissions PublicTransit (⟨2500, 1⟩ : Frac) = ⟨150, 1⟩ :=
  ⟨calculateEmissions_formula.2.1.1,
   calculateEmissions_formula.2.1.2.2.2.2 "scooter" (by decide) (by decide),
   calculateEmissions_formula.2.2.1,
   calculateEmissions_formula.2.2.2 PublicTransit ⟨2500, 1⟩ (by decide),
   by decide⟩

/-- C12: the code at a failing input.  Two trips of 600 s and 1200 s are saved
for one key into an empty collection.  The stored sample count is 2, as
claimed, but the stored duration is the sum, 1800 s, and `GetTrafficPattern`
returns it as it is; the running mean is 900 s.  `CalculateRoute` then gives
the returned segment 1800 s. -/
theorem GetTrafficPattern_returns_sum_not_mean :
    (∃ p, GetTrafficPattern (scenarioWorld.withStore twoTripStore) berlin.Latitude
          berlin.Longitude munich.Latitude munich.Longitude 3 12 = .ok (some p) ∧
        p.SampleCount = 2 ∧ p.Duration = ⟨1800, 1⟩) ∧
    runningMean [(⟨600, 1⟩ : Frac), ⟨1200, 1⟩] = ⟨900, 1⟩ ∧
    (⟨1800, 1⟩ : Frac) ≠ runningMean [(⟨600, 1⟩ : Frac), ⟨1200, 1⟩] ∧
    (CalculateRoute ((patternWorld ⟨0, 1⟩).withStore twoTripStore) berlin munich bicyclePrefs
        "u1").result = .ok (overriddenResult 1800) := by
  refine ⟨⟨_, rfl, by decide, by decide⟩, by decide, by decide, by decide⟩

/-- C13: on every call of `CalculateRoute` in which the save of the record
handed to `SaveRoute` succeeds, the call succeeds and exactly one traffic-pattern
upsert is made.  Its key is the request's start latitude, start longitude, end
latitude and end longitude with the day of the week and the hour read from the
clock in `updateTrafficPattern`; the duration it adds is `Seconds()` of the
duration of the first returned segment, as stored in the result, however many
segments are returned. -/
theorem CalculateRoute_upsert_once (w : World F) (start end_ : Location F)
    (prefs : RoutePreferences F) (userID : String) (saved : SavedRoute F)
    (hmem : Event.create saved ∈ (CalculateRoute w start end_ prefs userID).trace)
    (hsave : w.create saved = none) :
    ∃ r first rest,
      (CalculateRoute w start end_ prefs userID).result = .ok r ∧
      r.Route.Segments = first :: rest ∧
      (CalculateRoute w start end_ prefs userID).trace.filter Event.isUpdateOne
        = [Event.updateOne
            { start_lat := start.Latitude
              start_lng := start.Longitude
              end_lat := end_.Latitude
              end_lng := end_.Longitude
              day_of_week := (w.now 2).Weekday
              hour_of_day := (w.now 2).Hour }
            { inc_sample_count := 1
              inc_duration := Seconds first.Duration
              set_timestamp := w.now 3 }] := by
  rcases CalculateRoute_cases w start end_ prefs userID with
    ⟨_, hrun⟩ | ⟨_, _, _, hrun⟩ | ⟨_, pattern, _, _, hrun⟩ |
    ⟨_, pattern, first, _, err2, _, _, hc, hrun⟩ |
    ⟨_, pattern, first, rest, _, hseg, hc, hrun⟩
  · rw [hrun] at hmem; simp at hmem
  · rw [hrun] at hmem; simp [lookupEvent] at hmem
  · rw [hrun] at hmem
    simp [finalState_trace, lookupEvent] at hmem
  · rw [hrun] at hmem
    simp only [finalState_trace, lookupEvent, List.mem_append, List.mem_cons, List.mem_map,
      List.mem_singleton, List.not_mem_nil, or_false] at hmem
    rcases hmem with (hmem | ⟨_, _, hmem⟩) | hmem
    · cases hmem
    · cases hmem
    · injection hmem with hmem
      subst hmem
      rw [hc] at hsave
      cases hsave
  · rw [hrun]
    refine ⟨_, first, rest, rfl, hseg, ?_⟩
    rw [successTrace_filter_updateOne]
    rfl

theorem CalculateRoute_upsert_once_witness :
    (∃ r first rest,
      (CalculateRoute scenarioWorld berlin munich scenarioPrefs "u1").result = .ok r ∧
      r.Route.Segments = first :: rest ∧
      (CalculateRoute scenarioWorld berlin munich scenarioPrefs "u1").trace.filter
          Event.isUpdateOne
        = [Event.updateOne
            { start_lat := berlin.Latitude
              start_lng := berlin.Longitude
              end_lat := munich.Latitude
              end_lng := munich.Longitude
              day_of_week := 3
              hour_of_day := 12 }
            { inc_sample_count := 1
              inc_duration := Seconds first.Duration
              set_timestamp := noon }]) ∧
    (CalculateRoute scenarioWorld berlin munich scenarioPrefs "u1").trace.filter
        Event.isUpdateOne
      = [Event.updateOne berlinMunichKey
          { inc_sample_count := 1, inc_duration := ⟨18000, 1⟩, set_timestamp := noon }] :=
  ⟨CalculateRoute_upsert_once scenarioWorld berlin munich scenarioPrefs "u1" scenarioSaved
    (by decide) rfl, by decide⟩

end Theorems

end GreenRoute
